import Mathlib

/-!
# VibrationTest module (flight/Modules/VibrationTest/vibrationtest.c)

A shallow embedding of the vibration-analysis module: the accelerometer
callback `accelsUpdatedCb`, the start-up pair `VibrationTestInitialize` /
`VibrationTestStart`, and one iteration of the main loop of
`VibrationTestTask`.

Conventions.
* `float` values are rationals: the statements are over exact arithmetic,
  except for `accelsUpdatedCbF`, where the `float` type and its addition are
  left abstract.
* `uint8_t` / `uint16_t` values are naturals, reduced `% 256` / `% 65536`
  where the C code can overflow them.
* A stack buffer `float buf[fft_window_size*2]` is its lane-indexed contents
  `Nat → ℚ`; only the lanes below `fft_window_size*2` belong to the array.
* The CMSIS-DSP primitives (`arm_math.h`) are external: they are fields of
  `ArmMath`, a parameter of the task.
* Calls the claims speak about (transform, publish, erase) are recorded as
  `Event`s returned next to the new state.
-/

namespace VibrationTest

/-! ## Data model -/

/-- Module data `struct VibrationTest_data` (lines 67-77). -/
structure VibrationTest_data where
  access_accels : Bool
  accels_sum_count : Nat
  accels_data_sum_x : ℚ
  accels_data_sum_y : ℚ
  accels_data_sum_z : ℚ
  accels_static_bias_x : ℚ
  accels_static_bias_y : ℚ
  accels_static_bias_z : ℚ
deriving DecidableEq

/-- Accelerometer reading `AccelsData` as read by `AccelsGet` (the fields the module uses). -/
structure AccelsData where
  x : ℚ
  y : ℚ
  z : ℚ
deriving DecidableEq

/-- One record `VibrationTestOutputData` of the output object. -/
structure VibrationTestOutputData where
  x : ℚ
  y : ℚ
  z : ℚ
deriving DecidableEq

/-- Status codes `arm_status` of CMSIS-DSP. -/
inductive arm_status where
  | ARM_MATH_SUCCESS
  | ARM_MATH_ARGUMENT_ERROR
  | ARM_MATH_LENGTH_ERROR
  | ARM_MATH_SIZE_MISMATCH
  | ARM_MATH_NANINF
  | ARM_MATH_SINGULAR
  | ARM_MATH_TEST_FAILURE
deriving DecidableEq

/-- The CMSIS-DSP primitives used by the task, taken as parameters:
`arm_cfft_radix4_init_f32` maps the requested length to a status,
`arm_cfft_radix4_f32` maps the length stored in the instance and the buffer
contents to the contents after the in-place transform, and `sqrtf` is the
square root used by `arm_cmplx_mag_f32`. -/
structure ArmMath where
  arm_cfft_radix4_init_f32 : Nat → arm_status
  arm_cfft_radix4_f32 : Nat → (Nat → ℚ) → (Nat → ℚ)
  sqrtf : ℚ → ℚ

/-- Complex magnitude `arm_cmplx_mag_f32(pSrc, pDst, numSamples)` of CMSIS-DSP:
`pDst[n] = sqrt(pSrc[2n]^2 + pSrc[2n+1]^2)` for `n < numSamples`; the lanes of
`pDst` from `numSamples` on are not written. -/
def arm_cmplx_mag_f32 (lib : ArmMath) (pSrc pDst : Nat → ℚ) (numSamples : Nat) : Nat → ℚ :=
  fun n => if n < numSamples then
      lib.sqrtf (pSrc (2 * n) * pSrc (2 * n) + pSrc (2 * n + 1) * pSrc (2 * n + 1))
    else pDst n

/-- Copy of `n` floats, `memcpy(dst, src, n * sizeof(float))`. -/
def memcpy (dst src : Nat → ℚ) (n : Nat) : Nat → ℚ :=
  fun i => if i < n then src i else dst i

/-- Zeroing of the first `n` floats, `memset(dst, 0, n * sizeof(float))`. -/
def memset0 (dst : Nat → ℚ) (n : Nat) : Nat → ℚ :=
  fun i => if i < n then 0 else dst i

/-- Modelled from the spec: the spectrum store `instanceCount()`, in the code
`UAVObjGetNumInstances(VibrationTestOutputHandle())`; the object manager is not
part of the sources. The store is the list of its instances. -/
def UAVObjGetNumInstances (store : List VibrationTestOutputData) : Nat :=
  store.length

/-- Modelled from the spec: the spectrum store `setInstance(index, {x, y, z})`,
in the code `VibrationTestOutputInstSet(instId, &data)`; it overwrites the
record of an existing instance and leaves the store alone otherwise. -/
def VibrationTestOutputInstSet (instId : Nat) (d : VibrationTestOutputData)
    (store : List VibrationTestOutputData) : List VibrationTestOutputData :=
  store.set instId d

/-- Calls made by one iteration of the task loop, in the order they are made. -/
inductive Event where
  | cfft_init (fftLen : Nat)
  | cfft (axis : Nat)
  | cmplx_mag (axis : Nat) (numSamples : Nat)
  | InstSet (instId : Nat) (d : VibrationTestOutputData)
  | erase
deriving DecidableEq

/-- State of `VibrationTestTask` between two iterations of its loop: the module
data `*vtd`, the cursor `sample_count` (a `uint8_t`), the three stack buffers
and the instances of the `VibrationTestOutput` object. -/
structure TaskState where
  vtd : VibrationTest_data
  sample_count : Nat
  accel_buffer_complex_x : Nat → ℚ
  accel_buffer_complex_y : Nat → ℚ
  accel_buffer_complex_z : Nat → ℚ
  output : List VibrationTestOutputData

/-! ## accelsUpdatedCb (lines 330-342) -/

/-- The callback `accelsUpdatedCb`; `accels_data` is what `AccelsGet` reads.
`accels_sum_count` is a `uint16_t`, so the increment is modulo 65536. The sums
are C `float`s; here they are rationals and `+=` is the exact sum, so this is
the callback over exact arithmetic (`accelsUpdatedCbF` below leaves the `float`
type and its addition abstract). -/
def accelsUpdatedCb (accels_data : AccelsData) (d : VibrationTest_data) : VibrationTest_data :=
  if !d.access_accels then
    { d with
      accels_data_sum_x := d.accels_data_sum_x + accels_data.x
      accels_data_sum_y := d.accels_data_sum_y + accels_data.y
      accels_data_sum_z := d.accels_data_sum_z + accels_data.z
      accels_sum_count := (d.accels_sum_count + 1) % 65536 }
  else d

/-- Module data `struct VibrationTest_data` (lines 67-77) with the C type
`float` left abstract as `F`. -/
structure VibrationTest_dataF (F : Type) where
  access_accels : Bool
  accels_sum_count : Nat
  accels_data_sum_x : F
  accels_data_sum_y : F
  accels_data_sum_z : F
  accels_static_bias_x : F
  accels_static_bias_y : F
  accels_static_bias_z : F

/-- Accelerometer reading `AccelsData` with the C type `float` left abstract. -/
structure AccelsDataF (F : Type) where
  x : F
  y : F
  z : F

/-- The callback `accelsUpdatedCb` (lines 330-342) with the type `float` and its
addition left abstract: `fadd u v` is what the C expression `u + v` on `float`s
evaluates to (rounded, possibly infinite). -/
def accelsUpdatedCbF {F : Type} (fadd : F → F → F) (accels_data : AccelsDataF F)
    (d : VibrationTest_dataF F) : VibrationTest_dataF F :=
  if !d.access_accels then
    { d with
      accels_data_sum_x := fadd d.accels_data_sum_x accels_data.x
      accels_data_sum_y := fadd d.accels_data_sum_y accels_data.y
      accels_data_sum_z := fadd d.accels_data_sum_z accels_data.z
      accels_sum_count := (d.accels_sum_count + 1) % 65536 }
  else d

/-- The rational module data read as module data over `F = ℚ`. -/
def VibrationTest_data.asFloat (d : VibrationTest_data) : VibrationTest_dataF ℚ :=
  { access_accels := d.access_accels
    accels_sum_count := d.accels_sum_count
    accels_data_sum_x := d.accels_data_sum_x
    accels_data_sum_y := d.accels_data_sum_y
    accels_data_sum_z := d.accels_data_sum_z
    accels_static_bias_x := d.accels_static_bias_x
    accels_static_bias_y := d.accels_static_bias_y
    accels_static_bias_z := d.accels_static_bias_z }

/-- The rational reading read as a reading over `F = ℚ`. -/
def AccelsData.asFloat (a : AccelsData) : AccelsDataF ℚ :=
  { x := a.x
    y := a.y
    z := a.z }

/-! ## VibrationTestTask, one iteration of `while(1)` (lines 199-320) -/

/-- Lines 208-243 on the branch `vtd->accels_sum_count != 0`: average, bias
update, write of the debiased sample at the cursor, reset of the accumulators,
and the imaginary lane set to zero. -/
def sampleBlock (s : TaskState) : TaskState :=
  let accels_avg_x := s.vtd.accels_data_sum_x / (s.vtd.accels_sum_count : ℚ)
  let accels_avg_y := s.vtd.accels_data_sum_y / (s.vtd.accels_sum_count : ℚ)
  let accels_avg_z := s.vtd.accels_data_sum_z / (s.vtd.accels_sum_count : ℚ)
  let alpha : ℚ := 1 / 100
  let bias_x := alpha * accels_avg_x + (1 - alpha) * s.vtd.accels_static_bias_x
  let bias_y := alpha * accels_avg_y + (1 - alpha) * s.vtd.accels_static_bias_y
  let bias_z := alpha * accels_avg_z + (1 - alpha) * s.vtd.accels_static_bias_z
  let bufx := Function.update s.accel_buffer_complex_x (s.sample_count * 2) (accels_avg_x - bias_x)
  let bufy := Function.update s.accel_buffer_complex_y (s.sample_count * 2) (accels_avg_y - bias_y)
  let bufz := Function.update s.accel_buffer_complex_z (s.sample_count * 2) (accels_avg_z - bias_z)
  { vtd :=
      { access_accels := false
        accels_sum_count := 0
        accels_data_sum_x := 0
        accels_data_sum_y := 0
        accels_data_sum_z := 0
        accels_static_bias_x := bias_x
        accels_static_bias_y := bias_y
        accels_static_bias_z := bias_z }
    sample_count := s.sample_count
    accel_buffer_complex_x := Function.update bufx (s.sample_count * 2 + 1) 0
    accel_buffer_complex_y := Function.update bufy (s.sample_count * 2 + 1) 0
    accel_buffer_complex_z := Function.update bufz (s.sample_count * 2 + 1) 0
    output := s.output }

/-- Lines 246-249: `sample_count++` on a `uint8_t`, then the reset when the
cursor has reached `fft_window_size`. -/
def advanceCursor (fft_window_size : Nat) (sample_count : Nat) : Nat :=
  let sample_count := (sample_count + 1) % 256
  if sample_count ≥ fft_window_size then 0 else sample_count

/-- Lines 286-297 for one buffer: in-place transform, magnitude of the first
half into `fft_output`, copy of `fft_output` over the start of the buffer.
`fft_output` is an uninitialised local array, its lanes from
`fft_window_size>>1` on are never read. -/
def transformBuffer (lib : ArmMath) (fft_window_size : Nat) (ptrCmplxVec : Nat → ℚ) : Nat → ℚ :=
  let transformed := lib.arm_cfft_radix4_f32 fft_window_size ptrCmplxVec
  let fft_output := arm_cmplx_mag_f32 lib transformed (fun _ => 0) (fft_window_size >>> 1)
  memcpy transformed fft_output (fft_window_size >>> 1)

/-- Body of the loop `for (int i=0; i < 3; i++)` (lines 265-299). -/
def axisStep (lib : ArmMath) (fft_window_size : Nat) (status : arm_status)
    (acc : TaskState × List Event) (i : Nat) : TaskState × List Event :=
  if status = arm_status.ARM_MATH_SUCCESS then
    match i with
    | 0 =>
      ({ acc.1 with accel_buffer_complex_x := transformBuffer lib fft_window_size acc.1.accel_buffer_complex_x },
        acc.2 ++ [Event.cfft 0, Event.cmplx_mag 0 (fft_window_size >>> 1)])
    | 1 =>
      ({ acc.1 with accel_buffer_complex_y := transformBuffer lib fft_window_size acc.1.accel_buffer_complex_y },
        acc.2 ++ [Event.cfft 1, Event.cmplx_mag 1 (fft_window_size >>> 1)])
    | 2 =>
      ({ acc.1 with accel_buffer_complex_z := transformBuffer lib fft_window_size acc.1.accel_buffer_complex_z },
        acc.2 ++ [Event.cfft 2, Event.cmplx_mag 2 (fft_window_size >>> 1)])
    | _ => acc
  else acc

/-- Lines 308-310: the record assembled from lane `j` of the three buffers. -/
def recordAt (s : TaskState) (j : Nat) : VibrationTestOutputData :=
  { x := s.accel_buffer_complex_x j
    y := s.accel_buffer_complex_y j
    z := s.accel_buffer_complex_z j }

/-- Body of the loop `for (int j=0; j<(fft_window_size>>1); j++)` (lines 302-312). -/
def publishStep (acc : TaskState × List Event) (j : Nat) : TaskState × List Event :=
  if j ≥ UAVObjGetNumInstances acc.1.output then acc
  else
    let vibrationTestOutputData := recordAt acc.1 j
    ({ acc.1 with output := VibrationTestOutputInstSet j vibrationTestOutputData acc.1.output },
      acc.2 ++ [Event.InstSet j vibrationTestOutputData])

/-- The publish loop of lines 302-312. -/
def publishLoop (fft_window_size : Nat) (acc : TaskState × List Event) : TaskState × List Event :=
  (List.range (fft_window_size >>> 1)).foldl publishStep acc

/-- Lines 316-318: the three `memset(buf, 0, sizeof(buf))`. -/
def eraseBuffers (fft_window_size : Nat) (s : TaskState) : TaskState :=
  { s with
    accel_buffer_complex_x := memset0 s.accel_buffer_complex_x (fft_window_size * 2)
    accel_buffer_complex_y := memset0 s.accel_buffer_complex_y (fft_window_size * 2)
    accel_buffer_complex_z := memset0 s.accel_buffer_complex_z (fft_window_size * 2) }

/-- The block under `if (sample_count==0)` (lines 252-319): initialisation of
the transform, the three transforms, the publish loop and the erase. -/
def processWindow (lib : ArmMath) (fft_window_size : Nat) (s : TaskState) : TaskState × List Event :=
  let status := lib.arm_cfft_radix4_init_f32 fft_window_size
  let transformed := (List.range 3).foldl (axisStep lib fft_window_size status)
    (s, [Event.cfft_init fft_window_size])
  let published := publishLoop fft_window_size transformed
  (eraseBuffers fft_window_size published.1, published.2 ++ [Event.erase])

/-- Assignment to the cursor `sample_count`. -/
def setCursor (s : TaskState) (c : Nat) : TaskState :=
  { s with sample_count := c }

/-- One iteration of the main loop of `VibrationTestTask` after the delay
(lines 207-319), with the calls it makes. -/
def VibrationTestTask_tick (lib : ArmMath) (fft_window_size : Nat) (s : TaskState) :
    TaskState × List Event :=
  if s.vtd.accels_sum_count ≠ 0 then
    let s1 := sampleBlock s
    let s2 := setCursor s1 (advanceCursor fft_window_size s1.sample_count)
    if s2.sample_count = 0 then processWindow lib fft_window_size s2
    else (s2, [])
  else (s, [])

/-! ## Runs: callbacks between ticks -/

/-- The callback invoked once per reading of `samples`, in order. -/
def feed (samples : List AccelsData) (d : VibrationTest_data) : VibrationTest_data :=
  samples.foldl (fun d a => accelsUpdatedCb a d) d

/-- One period: the readings that arrive before the tick, then the tick. -/
def period (lib : ArmMath) (fft_window_size : Nat) (s : TaskState) (batch : List AccelsData) :
    TaskState × List Event :=
  VibrationTestTask_tick lib fft_window_size { s with vtd := feed batch s.vtd }

/-- A run of periods, one batch of readings per tick; the result is the final
state and, per tick, the calls of that tick. -/
def run (lib : ArmMath) (fft_window_size : Nat) :
    TaskState → List (List AccelsData) → TaskState × List (List Event)
  | s, [] => (s, [])
  | s, batch :: rest =>
    let r := period lib fft_window_size s batch
    let r2 := run lib fft_window_size r.1 rest
    (r2.1, r.2 :: r2.2)

/-! ## Start-up: VibrationTestInitialize and VibrationTestStart (lines 87-166) -/

/-- The static variables of the module and the heap block behind `vtd`
(`none` is the null pointer). -/
structure ModuleState where
  module_enabled : Bool
  fft_window_size : Nat
  vtd : Option VibrationTest_data
deriving DecidableEq

/-- What start-up reads from its surroundings: whether the build defines
`MODULE_VibrationTest_BUILTIN`, whether the module settings hold
`MODULESETTINGS_STATE_ENABLED` for this module, the value read by
`VibrationTestSettingsFFTWindowSizeGet`, the values of the four enumerators
`VIBRATIONTESTSETTINGS_FFTWINDOWSIZE_*` (a generated header that is not part of
the sources), and whether `pvPortMalloc` returns a block. -/
structure StartupEnv where
  builtin : Bool
  state_enabled : Bool
  fft_window_size_enum : Nat
  FFTWINDOWSIZE_16 : Nat
  FFTWINDOWSIZE_64 : Nat
  FFTWINDOWSIZE_256 : Nat
  FFTWINDOWSIZE_1024 : Nat
  malloc_ok : Bool

/-- The case labels of a C `switch` are pairwise different. -/
def StartupEnv.labelsDistinct (env : StartupEnv) : Prop :=
  env.FFTWINDOWSIZE_16 ≠ env.FFTWINDOWSIZE_64 ∧ env.FFTWINDOWSIZE_16 ≠ env.FFTWINDOWSIZE_256 ∧
  env.FFTWINDOWSIZE_16 ≠ env.FFTWINDOWSIZE_1024 ∧ env.FFTWINDOWSIZE_64 ≠ env.FFTWINDOWSIZE_256 ∧
  env.FFTWINDOWSIZE_64 ≠ env.FFTWINDOWSIZE_1024 ∧ env.FFTWINDOWSIZE_256 ≠ env.FFTWINDOWSIZE_1024

instance (env : StartupEnv) : Decidable env.labelsDistinct := by
  unfold StartupEnv.labelsDistinct
  infer_instance

/-- Calls made by the start-up functions, in the order they are made. -/
inductive SysCall where
  | ModuleSettingsInit
  | ModuleSettingsStateGet
  | VibrationTestSettingsInit
  | VibrationTestOutputInit
  | FFTWindowSizeGet
  | AccelsConnectCallback
  | pvPortMalloc
  | xTaskCreate (stackDepth : Nat)
  | TaskMonitorAdd
deriving DecidableEq

/-- Result of a start-up function: the returned `int32_t`, the module state
after the call and the calls made. -/
structure StartupResult where
  ret : Int
  state : ModuleState
  calls : List SysCall
deriving DecidableEq

/-- The macro `STACK_SIZE_BYTES` (line 59). -/
def STACK_SIZE_BYTES (fft_window_size : Nat) : Nat :=
  200 + 460 + (26 * fft_window_size)

/-- The function `VibrationTestInitialize` (lines 118-166). -/
def VibrationTestInitialize (env : StartupEnv) (m : ModuleState) : StartupResult :=
  let enabled := if env.builtin then true else env.state_enabled
  let calls := if env.builtin then [SysCall.ModuleSettingsInit]
    else [SysCall.ModuleSettingsInit, SysCall.ModuleSettingsStateGet]
  let m := { m with module_enabled := enabled }
  if !m.module_enabled then { ret := -1, state := m, calls := calls }
  else
    let calls := calls ++
      [SysCall.VibrationTestSettingsInit, SysCall.VibrationTestOutputInit, SysCall.FFTWindowSizeGet]
    if env.fft_window_size_enum = env.FFTWINDOWSIZE_16 then
      { ret := 0, state := { m with fft_window_size := 16 }, calls := calls }
    else if env.fft_window_size_enum = env.FFTWINDOWSIZE_64 then
      { ret := 0, state := { m with fft_window_size := 64 }, calls := calls }
    else if env.fft_window_size_enum = env.FFTWINDOWSIZE_256 then
      { ret := 0, state := { m with fft_window_size := 256 }, calls := calls }
    else if env.fft_window_size_enum = env.FFTWINDOWSIZE_1024 then
      { ret := 0, state := { m with fft_window_size := 1024 }, calls := calls }
    else
      { ret := -1, state := { m with module_enabled := false }, calls := calls }

/-- The function `VibrationTestStart` (lines 87-112). -/
def VibrationTestStart (env : StartupEnv) (m : ModuleState) : StartupResult :=
  if !m.module_enabled then { ret := -1, state := m, calls := [] }
  else if !env.malloc_ok then
    { ret := -1, state := { m with module_enabled := false, vtd := none },
      calls := [SysCall.AccelsConnectCallback, SysCall.pvPortMalloc] }
  else
    let zeroed : VibrationTest_data :=
      { access_accels := false
        accels_sum_count := 0
        accels_data_sum_x := 0
        accels_data_sum_y := 0
        accels_data_sum_z := 0
        accels_static_bias_x := 0
        accels_static_bias_y := 0
        accels_static_bias_z := 0 }
    { ret := 0
      state := { m with vtd := some { zeroed with accels_static_bias_z := 981 / 100 } }
      calls := [SysCall.AccelsConnectCallback, SysCall.pvPortMalloc,
        SysCall.xTaskCreate (STACK_SIZE_BYTES m.fft_window_size / 4), SysCall.TaskMonitorAdd] }

/-- A concrete instance of the library interface for example runs:
initialisation succeeds exactly for the lengths 16, 64, 256 and 1024 (as in
CMSIS-DSP of 2013); the transform and the root are placeholders (identity).
The theorems below hold for every instance. -/
def sampleMath : ArmMath :=
  { arm_cfft_radix4_init_f32 := fun fftLen =>
      if fftLen = 16 ∨ fftLen = 64 ∨ fftLen = 256 ∨ fftLen = 1024 then arm_status.ARM_MATH_SUCCESS
      else arm_status.ARM_MATH_ARGUMENT_ERROR
    arm_cfft_radix4_f32 := fun _ buf => buf
    sqrtf := fun q => q }

/-- A library instance whose initialisation fails with `ARM_MATH_ARGUMENT_ERROR`
for every length (for runs through the failure branch of line 266). -/
def failingMath : ArmMath :=
  { arm_cfft_radix4_init_f32 := fun _ => arm_status.ARM_MATH_ARGUMENT_ERROR
    arm_cfft_radix4_f32 := fun _ buf => buf
    sqrtf := fun q => q }

/-- Module data right after `VibrationTestStart`: all zero but the z bias. -/
def vtdAtStart : VibrationTest_data :=
  { access_accels := false
    accels_sum_count := 0
    accels_data_sum_x := 0
    accels_data_sum_y := 0
    accels_data_sum_z := 0
    accels_static_bias_x := 0
    accels_static_bias_y := 0
    accels_static_bias_z := 981 / 100 }

/-- An example task state: cursor `c`, accumulators holding `n` readings that
sum to `(n, 0, 981 n / 100)`, buffers holding 7 in every lane, and a store of
`k` instances with zero records. -/
def exampleState (c n k : Nat) : TaskState :=
  { vtd := { vtdAtStart with
      accels_sum_count := n
      accels_data_sum_x := n
      accels_data_sum_z := 981 * n / 100 }
    sample_count := c
    accel_buffer_complex_x := fun _ => 7
    accel_buffer_complex_y := fun _ => 7
    accel_buffer_complex_z := fun _ => 7
    output := List.replicate k { x := 0, y := 0, z := 0 } }

/-- Magnitude `|V[j]|` of the `j`-th complex entry of a buffer of interleaved
real and imaginary lanes. -/
def magnitudeAt (lib : ArmMath) (V : Nat → ℚ) (j : Nat) : ℚ :=
  lib.sqrtf (V (2 * j) * V (2 * j) + V (2 * j + 1) * V (2 * j + 1))

/-- The record `(|X[j]|, |Y[j]|, |Z[j]|)`, where `X`, `Y`, `Z` are the
transforms of the three windows of the state `w`. -/
def spectrumRecord (lib : ArmMath) (fft_window_size : Nat) (w : TaskState) (j : Nat) :
    VibrationTestOutputData :=
  { x := magnitudeAt lib (lib.arm_cfft_radix4_f32 fft_window_size w.accel_buffer_complex_x) j
    y := magnitudeAt lib (lib.arm_cfft_radix4_f32 fft_window_size w.accel_buffer_complex_y) j
    z := magnitudeAt lib (lib.arm_cfft_radix4_f32 fft_window_size w.accel_buffer_complex_z) j }

/-- The three axes. -/
inductive Axis where
  | x
  | y
  | z
deriving DecidableEq

/-- The bias estimate of an axis. -/
def biasOf (ax : Axis) (d : VibrationTest_data) : ℚ :=
  match ax with
  | Axis.x => d.accels_static_bias_x
  | Axis.y => d.accels_static_bias_y
  | Axis.z => d.accels_static_bias_z

/-- The component of a reading along an axis. -/
def componentOf (ax : Axis) (a : AccelsData) : ℚ :=
  match ax with
  | Axis.x => a.x
  | Axis.y => a.y
  | Axis.z => a.z

/-- The average of a batch of readings along an axis. -/
def batchAverage (ax : Axis) (b : List AccelsData) : ℚ :=
  (b.map (componentOf ax)).sum / (b.length : ℚ)

/-- The accumulators as a tick with readings (or start-up) leaves them: count
and sums zero, flag clear. -/
def Drained (d : VibrationTest_data) : Prop :=
  d.accels_sum_count = 0 ∧ d.accels_data_sum_x = 0 ∧ d.accels_data_sum_y = 0 ∧
  d.accels_data_sum_z = 0 ∧ d.access_accels = false

instance (d : VibrationTest_data) : Decidable (Drained d) := by
  unfold Drained
  infer_instance

/-- The bias of an axis after the first `k` periods of a run. -/
def biasAfter (lib : ArmMath) (fft_window_size : Nat) (s : TaskState)
    (batches : List (List AccelsData)) (ax : Axis) (k : Nat) : ℚ :=
  biasOf ax (run lib fft_window_size s (batches.take k)).1.vtd

/-- An example of start-up surroundings: the module is enabled through the
module settings, the enumerators are 0, 1, 2, 3, the settings hold `e`, and the
allocation succeeds. -/
def exampleEnv (e : Nat) : StartupEnv :=
  { builtin := false
    state_enabled := true
    fft_window_size_enum := e
    FFTWINDOWSIZE_16 := 0
    FFTWINDOWSIZE_64 := 1
    FFTWINDOWSIZE_256 := 2
    FFTWINDOWSIZE_1024 := 3
    malloc_ok := true }

/-- The static variables at boot: zero-initialised, `vtd` null. -/
def bootState : ModuleState :=
  { module_enabled := false
    fft_window_size := 0
    vtd := none }

/-- Accumulators holding 65535 readings, unlocked: the largest `uint16_t` count. -/
def fullCounter : VibrationTest_data :=
  { vtdAtStart with accels_sum_count := 65535 }

/-- An accelerometer reading at rest: `(1, 0, 9.81)`. -/
def restReading : AccelsData :=
  { x := 1, y := 0, z := 981 / 100 }

/-! ## VibrationTestTask, before the loop (lines 173-198) -/

/-- Modelled from the spec: the spectrum store `createInstance()`, in the code
`VibrationTestOutputCreateInstance()`; the object manager is not part of the
sources. A creation that succeeds (`ok`) appends one instance with a zero
record, one that fails leaves the store alone. -/
def VibrationTestOutputCreateInstance (ok : Bool) (store : List VibrationTestOutputData) :
    List VibrationTestOutputData :=
  if ok then store ++ [{ x := 0, y := 0, z := 0 }] else store

/-- Body of the loop `for (int i=1; i<(fft_window_size>>1); i++)` (lines
191-193): one call of `VibrationTestOutputCreateInstance`; `createOk i` tells
whether the creation of iteration `i` succeeds. The second component lists the
iterations that made the call. -/
def createStep (createOk : Nat → Bool) (acc : List VibrationTestOutputData × List Nat) (i : Nat) :
    List VibrationTestOutputData × List Nat :=
  (VibrationTestOutputCreateInstance (createOk i) acc.1, acc.2 ++ [i])

/-- The loop of lines 191-193, over `i = 1, ..., (fft_window_size>>1) - 1`. -/
def createInstances (createOk : Nat → Bool) (fft_window_size : Nat)
    (store : List VibrationTestOutputData) : List VibrationTestOutputData × List Nat :=
  (List.range' 1 ((fft_window_size >>> 1) - 1)).foldl (createStep createOk) (store, [])

/-- The task state when the main loop is entered (lines 173-198): the three
stack buffers hold whatever the stack held (`garbage_x`, `garbage_y`,
`garbage_z`), the instances have been created and `sample_count = 0`. -/
def VibrationTestTask_start (createOk : Nat → Bool) (fft_window_size : Nat)
    (vtd : VibrationTest_data) (garbage_x garbage_y garbage_z : Nat → ℚ)
    (store : List VibrationTestOutputData) : TaskState :=
  { vtd := vtd
    sample_count := 0
    accel_buffer_complex_x := garbage_x
    accel_buffer_complex_y := garbage_y
    accel_buffer_complex_z := garbage_z
    output := (createInstances createOk fft_window_size store).1 }

/-- The readings of a batch delivered to the callback before a tick. -/
def deliver (batch : List AccelsData) (s : TaskState) : TaskState :=
  { s with vtd := feed batch s.vtd }

/-- The task state at the entry of the main loop with `fft_window_size = 1024`,
7 in every lane of the three buffers (standing for what the stack held), a
store of one instance before the creations, and every creation succeeding. -/
def entered1024 : TaskState :=
  VibrationTestTask_start (fun _ => true) 1024 vtdAtStart (fun _ => 7) (fun _ => 7) (fun _ => 7)
    [{ x := 0, y := 0, z := 0 }]

/-- The state 255 periods of one reading each after `entered1024`. -/
def after255 : TaskState :=
  (run sampleMath 1024 entered1024 (List.replicate 255 [restReading])).1

/-! ## Basic facts about one tick -/

theorem range_three : List.range 3 = [0, 1, 2] := by decide

theorem setCursor_sample_count (s : TaskState) (c : Nat) : (setCursor s c).sample_count = c := rfl

theorem setCursor_output (s : TaskState) (c : Nat) : (setCursor s c).output = s.output := rfl

theorem shiftRight_one (n : Nat) : n >>> 1 = n / 2 := by
  simp [Nat.shiftRight_eq_div_pow]

/-- The publish loop touches only the store, and keeps its instance count. -/
theorem publishFold_frame (l : List Nat) (acc : TaskState × List Event) :
    (l.foldl publishStep acc).1.vtd = acc.1.vtd ∧
    (l.foldl publishStep acc).1.sample_count = acc.1.sample_count ∧
    (l.foldl publishStep acc).1.accel_buffer_complex_x = acc.1.accel_buffer_complex_x ∧
    (l.foldl publishStep acc).1.accel_buffer_complex_y = acc.1.accel_buffer_complex_y ∧
    (l.foldl publishStep acc).1.accel_buffer_complex_z = acc.1.accel_buffer_complex_z ∧
    (l.foldl publishStep acc).1.output.length = acc.1.output.length := by
  induction l generalizing acc with
  | nil => simp
  | cons j l ih =>
    rw [List.foldl_cons]
    obtain ⟨h1, h2, h3, h4, h5, h6⟩ := ih (publishStep acc j)
    rw [h1, h2, h3, h4, h5, h6]
    unfold publishStep
    split <;> simp [VibrationTestOutputInstSet]

/-- The three transforms touch only the buffers. -/
theorem axisFold_frame (lib : ArmMath) (n : Nat) (st : arm_status) (acc : TaskState × List Event) :
    ((List.range 3).foldl (axisStep lib n st) acc).1.vtd = acc.1.vtd ∧
    ((List.range 3).foldl (axisStep lib n st) acc).1.sample_count = acc.1.sample_count ∧
    ((List.range 3).foldl (axisStep lib n st) acc).1.output = acc.1.output := by
  rw [range_three]
  by_cases h : st = arm_status.ARM_MATH_SUCCESS <;> simp [axisStep, h]

/-- The buffers after the three transforms. -/
theorem axisFold_buffers (lib : ArmMath) (n : Nat) (st : arm_status) (acc : TaskState × List Event) :
    ((List.range 3).foldl (axisStep lib n st) acc).1.accel_buffer_complex_x =
      (if st = arm_status.ARM_MATH_SUCCESS then transformBuffer lib n acc.1.accel_buffer_complex_x
        else acc.1.accel_buffer_complex_x) ∧
    ((List.range 3).foldl (axisStep lib n st) acc).1.accel_buffer_complex_y =
      (if st = arm_status.ARM_MATH_SUCCESS then transformBuffer lib n acc.1.accel_buffer_complex_y
        else acc.1.accel_buffer_complex_y) ∧
    ((List.range 3).foldl (axisStep lib n st) acc).1.accel_buffer_complex_z =
      (if st = arm_status.ARM_MATH_SUCCESS then transformBuffer lib n acc.1.accel_buffer_complex_z
        else acc.1.accel_buffer_complex_z) := by
  rw [range_three]
  by_cases h : st = arm_status.ARM_MATH_SUCCESS <;> simp [axisStep, h]

/-- The calls recorded by the three transforms. -/
theorem axisFold_events (lib : ArmMath) (n : Nat) (st : arm_status) (acc : TaskState × List Event) :
    ((List.range 3).foldl (axisStep lib n st) acc).2 =
      acc.2 ++ (if st = arm_status.ARM_MATH_SUCCESS then
        [Event.cfft 0, Event.cmplx_mag 0 (n >>> 1), Event.cfft 1, Event.cmplx_mag 1 (n >>> 1),
          Event.cfft 2, Event.cmplx_mag 2 (n >>> 1)]
        else []) := by
  rw [range_three]
  by_cases h : st = arm_status.ARM_MATH_SUCCESS <;> simp [axisStep, h]

/-- The window block leaves the module data and the cursor alone. -/
theorem processWindow_frame (lib : ArmMath) (n : Nat) (s : TaskState) :
    (processWindow lib n s).1.vtd = s.vtd ∧
    (processWindow lib n s).1.sample_count = s.sample_count := by
  unfold processWindow
  simp only [eraseBuffers, publishLoop]
  obtain ⟨h1, h2, -⟩ := publishFold_frame (List.range (n >>> 1))
    ((List.range 3).foldl (axisStep lib n (lib.arm_cfft_radix4_init_f32 n)) (s, [Event.cfft_init n]))
  obtain ⟨g1, g2, -⟩ := axisFold_frame lib n (lib.arm_cfft_radix4_init_f32 n) (s, [Event.cfft_init n])
  exact ⟨h1.trans g1, h2.trans g2⟩

/-- A tick that finds no reading does nothing. -/
theorem tick_idle (lib : ArmMath) (n : Nat) (s : TaskState) (h : s.vtd.accels_sum_count = 0) :
    VibrationTestTask_tick lib n s = (s, []) := by
  simp [VibrationTestTask_tick, h]

/-- Module data after a tick that finds readings. -/
theorem tick_vtd (lib : ArmMath) (n : Nat) (s : TaskState) (h : s.vtd.accels_sum_count ≠ 0) :
    (VibrationTestTask_tick lib n s).1.vtd = (sampleBlock s).vtd := by
  unfold VibrationTestTask_tick
  rw [if_pos h]
  dsimp only
  split
  · exact (processWindow_frame lib n _).1
  · rfl

/-- Cursor after a tick that finds readings. -/
theorem tick_cursor (lib : ArmMath) (n : Nat) (s : TaskState) (h : s.vtd.accels_sum_count ≠ 0) :
    (VibrationTestTask_tick lib n s).1.sample_count = advanceCursor n s.sample_count := by
  unfold VibrationTestTask_tick
  rw [if_pos h]
  dsimp only
  split
  · rw [(processWindow_frame lib n _).2]; rfl
  · rfl

/-- Calls of the window block: initialisation, transforms, publishes, erase. -/
theorem processWindow_events (lib : ArmMath) (n : Nat) (s : TaskState) :
    Event.cfft_init n ∈ (processWindow lib n s).2 ∧ Event.erase ∈ (processWindow lib n s).2 := by
  unfold processWindow
  refine ⟨?_, by simp⟩
  dsimp only
  apply List.mem_append_left
  have key : ∀ (l : List Nat) (acc : TaskState × List Event), Event.cfft_init n ∈ acc.2 →
      Event.cfft_init n ∈ (l.foldl publishStep acc).2 := by
    intro l
    induction l with
    | nil => intro acc h; simpa using h
    | cons j l ih =>
      intro acc h
      rw [List.foldl_cons]
      apply ih
      unfold publishStep
      split
      · exact h
      · exact List.mem_append_left _ h
  apply key
  rw [axisFold_events]
  simp

/-- The window block runs in a tick with readings exactly when the advanced cursor is 0. -/
theorem tick_erase_iff (lib : ArmMath) (n : Nat) (s : TaskState) (h : s.vtd.accels_sum_count ≠ 0) :
    Event.erase ∈ (VibrationTestTask_tick lib n s).2 ↔ advanceCursor n s.sample_count = 0 := by
  unfold VibrationTestTask_tick
  rw [if_pos h]
  simp only [setCursor_sample_count]
  by_cases hc : advanceCursor n (sampleBlock s).sample_count = 0
  · rw [if_pos hc]
    exact ⟨fun _ => hc, fun _ => (processWindow_events lib n _).2⟩
  · rw [if_neg hc]
    exact ⟨fun hm => absurd hm (by simp), fun h0 => absurd h0 hc⟩

/-- The cursor advance, for a cursor inside the window: plus one modulo `min n 256`. -/
theorem advanceCursor_eq (n c : Nat) (hn : 0 < n) (hc : c < min n 256) :
    advanceCursor n c = (c + 1) % min n 256 := by
  unfold advanceCursor
  have h1 : c < n := lt_of_lt_of_le hc (min_le_left _ _)
  have h2 : c < 256 := lt_of_lt_of_le hc (min_le_right _ _)
  dsimp only
  rcases Nat.lt_or_ge n 256 with h | h
  · rw [min_eq_left (le_of_lt h)]
    rw [Nat.mod_eq_of_lt (by omega : c + 1 < 256)]
    split
    · have : c + 1 = n := by omega
      rw [this, Nat.mod_self]
    · rw [Nat.mod_eq_of_lt (by omega)]
  · rw [min_eq_right h]
    split
    · rename_i hge
      have : (c + 1) % 256 < 256 := Nat.mod_lt _ (by norm_num)
      omega
    · rfl

/-- Effect of a batch of readings on accumulators that are not locked. -/
theorem feed_spec (b : List AccelsData) (d : VibrationTest_data) (h : d.access_accels = false)
    (hc : d.accels_sum_count < 65536) :
    feed b d = { d with
      accels_data_sum_x := d.accels_data_sum_x + (b.map (fun a => a.x)).sum
      accels_data_sum_y := d.accels_data_sum_y + (b.map (fun a => a.y)).sum
      accels_data_sum_z := d.accels_data_sum_z + (b.map (fun a => a.z)).sum
      accels_sum_count := (d.accels_sum_count + b.length) % 65536 } := by
  induction b generalizing d with
  | nil =>
    simp only [feed, List.foldl_nil, List.map_nil, List.sum_nil, add_zero, List.length_nil]
    rw [Nat.mod_eq_of_lt hc]
  | cons a b ih =>
    have hfeed : feed (a :: b) d = feed b (accelsUpdatedCb a d) := rfl
    have hstep : accelsUpdatedCb a d = { d with
        accels_data_sum_x := d.accels_data_sum_x + a.x
        accels_data_sum_y := d.accels_data_sum_y + a.y
        accels_data_sum_z := d.accels_data_sum_z + a.z
        accels_sum_count := (d.accels_sum_count + 1) % 65536 } := by
      simp [accelsUpdatedCb, h]
    rw [hfeed, ih (accelsUpdatedCb a d) (by rw [hstep]; exact h)
      (by rw [hstep]; exact Nat.mod_lt _ (by norm_num)), hstep]
    simp only [List.map_cons, List.sum_cons, List.length_cons, add_assoc]
    congr 1
    omega

/-- Module data after the sample block: accumulators reset and unlocked. -/
theorem sampleBlock_clean (s : TaskState) :
    (sampleBlock s).vtd.accels_sum_count = 0 ∧ (sampleBlock s).vtd.access_accels = false :=
  ⟨rfl, rfl⟩

/-- One period with a batch whose length is not a multiple of 65536, from
reset accumulators: the tick finds readings. -/
theorem period_qualifying (s : TaskState) (b : List AccelsData)
    (hclean : s.vtd.accels_sum_count = 0 ∧ s.vtd.access_accels = false)
    (hq : b.length % 65536 ≠ 0) :
    (feed b s.vtd).accels_sum_count ≠ 0 := by
  rw [feed_spec b s.vtd hclean.2 (by rw [hclean.1]; norm_num)]
  simpa [hclean.1] using hq

/-- Cursor and window blocks along a run in which every tick finds readings:
the cursor counts modulo `min n 256`, and the window block runs exactly on the
ticks where it returns to 0. -/
theorem run_qualifying (lib : ArmMath) (n : Nat) (hn : 0 < n) (batches : List (List AccelsData)) :
    ∀ s : TaskState, s.sample_count < min n 256 →
    (s.vtd.accels_sum_count = 0 ∧ s.vtd.access_accels = false) →
    (∀ b ∈ batches, b.length % 65536 ≠ 0) →
    (run lib n s batches).1.sample_count = (s.sample_count + batches.length) % min n 256 ∧
    (run lib n s batches).2.length = batches.length ∧
    ∀ i, i < batches.length →
      (Event.erase ∈ (run lib n s batches).2.getD i [] ↔ (s.sample_count + i + 1) % min n 256 = 0) := by
  have hm : 0 < min n 256 := lt_min hn (by norm_num)
  induction batches with
  | nil =>
    intro s hcur _ _
    refine ⟨?_, rfl, fun i hi => absurd hi (by simp)⟩
    simp only [run, List.length_nil, add_zero]
    exact (Nat.mod_eq_of_lt hcur).symm
  | cons b rest ih =>
    intro s hcur hclean hq
    have hb : (feed b s.vtd).accels_sum_count ≠ 0 :=
      period_qualifying s b hclean (hq b (List.mem_cons_self _ _))
    have hcursor : (period lib n s b).1.sample_count = (s.sample_count + 1) % min n 256 := by
      unfold period
      rw [tick_cursor lib n _ hb]
      exact advanceCursor_eq n s.sample_count hn hcur
    have hvtd : (period lib n s b).1.vtd.accels_sum_count = 0 ∧
        (period lib n s b).1.vtd.access_accels = false := by
      unfold period
      rw [tick_vtd lib n _ hb]
      exact sampleBlock_clean _
    have herase : Event.erase ∈ (period lib n s b).2 ↔ (s.sample_count + 1) % min n 256 = 0 := by
      unfold period
      rw [tick_erase_iff lib n _ hb]
      show advanceCursor n s.sample_count = 0 ↔ _
      rw [advanceCursor_eq n s.sample_count hn hcur]
    obtain ⟨ih1, ih2, ih3⟩ := ih (period lib n s b).1
      (by rw [hcursor]; exact Nat.mod_lt _ hm) hvtd
      (fun b' hb' => hq b' (List.mem_cons_of_mem _ hb'))
    have hrun : run lib n s (b :: rest) =
        ((run lib n (period lib n s b).1 rest).1,
          (period lib n s b).2 :: (run lib n (period lib n s b).1 rest).2) := rfl
    rw [hrun]
    refine ⟨?_, ?_, ?_⟩
    · show (run lib n (period lib n s b).1 rest).1.sample_count = _
      rw [ih1, hcursor, List.length_cons, Nat.mod_add_mod]
      congr 1
      omega
    · simp [ih2]
    · intro i hi
      cases i with
      | zero => simpa using herase
      | succ i =>
        have hi2 : i < rest.length := by simpa using hi
        have := ih3 i hi2
        simp only [List.getD_cons_succ]
        rw [this, hcursor, add_assoc, add_assoc, Nat.mod_add_mod]
        have e : s.sample_count + 1 + (i + 1) = s.sample_count + (i + 1 + 1) := by omega
        rw [e]

/-- Every recorded tick of a run that contains the erase also contains the
initialisation of the transform: both belong to the window block. -/
theorem run_erase_init (lib : ArmMath) (n : Nat) (batches : List (List AccelsData)) :
    ∀ (s : TaskState) (i : Nat), Event.erase ∈ (run lib n s batches).2.getD i [] →
      Event.cfft_init n ∈ (run lib n s batches).2.getD i [] := by
  have tick_case : ∀ s : TaskState, Event.erase ∈ (VibrationTestTask_tick lib n s).2 →
      Event.cfft_init n ∈ (VibrationTestTask_tick lib n s).2 := by
    intro s
    unfold VibrationTestTask_tick
    split
    · dsimp only
      split
      · exact fun _ => (processWindow_events lib n _).1
      · intro h; exact absurd h (by simp)
    · intro h; exact absurd h (by simp)
  induction batches with
  | nil => intro s i h; exact absurd h (by simp [run])
  | cons b rest ih =>
    intro s i
    have hrun : run lib n s (b :: rest) =
        ((run lib n (period lib n s b).1 rest).1,
          (period lib n s b).2 :: (run lib n (period lib n s b).1 rest).2) := rfl
    rw [hrun]
    cases i with
    | zero =>
      simp only [List.getD_cons_zero]
      exact tick_case _
    | succ i =>
      simp only [List.getD_cons_succ]
      exact ih _ i

/-- The publish loop over the indices below `k`: it records one `InstSet` per
index below `min k c`, in increasing order, where `c` is the instance count,
and the store holds the assembled record at exactly those indices. -/
theorem publishRange_spec (k : Nat) (acc : TaskState × List Event) :
    ((List.range k).foldl publishStep acc).2 =
      acc.2 ++ (List.range (min k acc.1.output.length)).map
        (fun j => Event.InstSet j (recordAt acc.1 j)) ∧
    ∀ j, ((List.range k).foldl publishStep acc).1.output[j]? =
      if j < min k acc.1.output.length then some (recordAt acc.1 j) else acc.1.output[j]? := by
  induction k with
  | zero => simp
  | succ k ih =>
    obtain ⟨ihe, iho⟩ := ih
    obtain ⟨-, -, fx, fy, fz, flen⟩ := publishFold_frame (List.range k) acc
    have hrec : ∀ j, recordAt ((List.range k).foldl publishStep acc).1 j = recordAt acc.1 j := by
      intro j; simp only [recordAt, fx, fy, fz]
    rw [List.range_succ, List.foldl_append, List.foldl_cons, List.foldl_nil]
    generalize (List.range k).foldl publishStep acc = r at ihe iho flen hrec
    have hstep : publishStep r k = if acc.1.output.length ≤ k then r
        else ({ r.1 with output := r.1.output.set k (recordAt acc.1 k) },
          r.2 ++ [Event.InstSet k (recordAt acc.1 k)]) := by
      simp only [publishStep, UAVObjGetNumInstances, VibrationTestOutputInstSet, flen, ge_iff_le, hrec]
    rw [hstep]
    by_cases hk : acc.1.output.length ≤ k
    · rw [if_pos hk]
      have e1 : min (k + 1) acc.1.output.length = min k acc.1.output.length := by
        rw [min_eq_right hk, min_eq_right (by omega)]
      rw [e1]
      exact ⟨ihe, iho⟩
    · rw [if_neg hk]
      have e1 : min (k + 1) acc.1.output.length = k + 1 := min_eq_left (by omega)
      have e0 : min k acc.1.output.length = k := min_eq_left (by omega)
      rw [e1]
      rw [e0] at ihe iho
      refine ⟨?_, ?_⟩
      · simp only [ihe, List.range_succ, List.map_append, List.map_cons, List.map_nil,
          List.append_assoc]
      · intro j
        simp only [List.getElem?_set, flen]
        by_cases hj : k = j
        · subst hj
          simp [Nat.lt_of_not_le hk]
        · rw [if_neg hj, iho j]
          have : (j < k + 1) ↔ (j < k) := by omega
          simp only [this]

/-- A tick with readings that brings the cursor back to 0 runs the window block
on the state left by the sample block. -/
theorem tick_window (lib : ArmMath) (n : Nat) (s : TaskState) (h : s.vtd.accels_sum_count ≠ 0)
    (hw : advanceCursor n s.sample_count = 0) :
    VibrationTestTask_tick lib n s =
      processWindow lib n (setCursor (sampleBlock s) 0) := by
  have hs : (sampleBlock s).sample_count = s.sample_count := rfl
  unfold VibrationTestTask_tick
  rw [if_pos h]
  simp only [hs, hw, setCursor_sample_count, if_true]

/-- The first half of a transformed buffer holds the magnitudes of the transform. -/
theorem transformBuffer_low (lib : ArmMath) (n : Nat) (buf : Nat → ℚ) (j : Nat) (hj : j < n / 2) :
    transformBuffer lib n buf j = magnitudeAt lib (lib.arm_cfft_radix4_f32 n buf) j := by
  simp [transformBuffer, memcpy, arm_cmplx_mag_f32, magnitudeAt, shiftRight_one, hj]

/-- All lanes of the three arrays are zero after the window block. -/
theorem processWindow_erased (lib : ArmMath) (n : Nat) (s : TaskState) (i : Nat) (hi : i < n * 2) :
    (processWindow lib n s).1.accel_buffer_complex_x i = 0 ∧
    (processWindow lib n s).1.accel_buffer_complex_y i = 0 ∧
    (processWindow lib n s).1.accel_buffer_complex_z i = 0 := by
  simp [processWindow, eraseBuffers, memset0, hi]

/-- Calls and store of the window block, in terms of the state `T` that the
three transforms leave. -/
theorem processWindow_spec (lib : ArmMath) (n : Nat) (s : TaskState) :
    (processWindow lib n s).2 =
      [Event.cfft_init n] ++
      (if lib.arm_cfft_radix4_init_f32 n = arm_status.ARM_MATH_SUCCESS then
        [Event.cfft 0, Event.cmplx_mag 0 (n >>> 1), Event.cfft 1, Event.cmplx_mag 1 (n >>> 1),
          Event.cfft 2, Event.cmplx_mag 2 (n >>> 1)]
        else []) ++
      (List.range (min (n / 2) s.output.length)).map (fun j => Event.InstSet j (recordAt
        ((List.range 3).foldl (axisStep lib n (lib.arm_cfft_radix4_init_f32 n))
          (s, [Event.cfft_init n])).1 j)) ++
      [Event.erase] ∧
    ∀ j, (processWindow lib n s).1.output[j]? =
      if j < min (n / 2) s.output.length then some (recordAt
        ((List.range 3).foldl (axisStep lib n (lib.arm_cfft_radix4_init_f32 n))
          (s, [Event.cfft_init n])).1 j)
      else s.output[j]? := by
  obtain ⟨he, ho⟩ := publishRange_spec (n >>> 1)
    ((List.range 3).foldl (axisStep lib n (lib.arm_cfft_radix4_init_f32 n)) (s, [Event.cfft_init n]))
  obtain ⟨-, -, hout⟩ := axisFold_frame lib n (lib.arm_cfft_radix4_init_f32 n) (s, [Event.cfft_init n])
  rw [hout, axisFold_events, shiftRight_one] at he
  rw [hout, shiftRight_one] at ho
  refine ⟨?_, ?_⟩
  · show (publishLoop n _).2 ++ [Event.erase] = _
    unfold publishLoop
    rw [shiftRight_one, he]
  · intro j
    show (publishLoop n _).1.output[j]? = _
    unfold publishLoop
    rw [shiftRight_one, ho j]

/-- One period from drained accumulators with a batch of between 1 and 65535
readings: the bias of each axis moves by one smoothing step towards the batch
average, and the accumulators are drained again. -/
theorem period_bias (lib : ArmMath) (n : Nat) (s : TaskState) (b : List AccelsData)
    (hd : Drained s.vtd) (hb0 : 0 < b.length) (hb1 : b.length < 65536) (ax : Axis) :
    biasOf ax (period lib n s b).1.vtd =
      (1 / 100) * batchAverage ax b + (1 - 1 / 100) * biasOf ax s.vtd ∧
    Drained (period lib n s b).1.vtd := by
  obtain ⟨h0, hx, hy, hz, hf⟩ := hd
  have hfeed := feed_spec b s.vtd hf (by rw [h0]; norm_num)
  rw [h0, hx, hy, hz, Nat.zero_add, Nat.mod_eq_of_lt hb1] at hfeed
  have hne : (feed b s.vtd).accels_sum_count ≠ 0 := by rw [hfeed]; exact Nat.pos_iff_ne_zero.mp hb0
  unfold period
  rw [tick_vtd lib n _ hne]
  refine ⟨?_, rfl, rfl, rfl, rfl, rfl⟩
  cases ax <;> simp [biasOf, sampleBlock, hfeed, batchAverage] <;> rfl

/-- Bias along a run whose batches all have the average `t` on the axis:
the distance to `t` shrinks by the factor 99/100 per period. -/
theorem run_bias (lib : ArmMath) (n : Nat) (ax : Axis) (t : ℚ) (batches : List (List AccelsData)) :
    ∀ s : TaskState, Drained s.vtd →
    (∀ b ∈ batches, 0 < b.length ∧ b.length < 65536 ∧ batchAverage ax b = t) →
    biasOf ax (run lib n s batches).1.vtd - t =
      (99 / 100) ^ batches.length * (biasOf ax s.vtd - t) ∧
    Drained (run lib n s batches).1.vtd := by
  induction batches with
  | nil => intro s hd _; simpa [run] using hd
  | cons b rest ih =>
    intro s hd hq
    obtain ⟨hb0, hb1, havg⟩ := hq b (List.mem_cons_self _ _)
    obtain ⟨hstep, hd2⟩ := period_bias lib n s b hd hb0 hb1 ax
    obtain ⟨ih1, ih2⟩ := ih (period lib n s b).1 hd2
      (fun b2 hb2 => hq b2 (List.mem_cons_of_mem _ hb2))
    have hrun : (run lib n s (b :: rest)).1 = (run lib n (period lib n s b).1 rest).1 := rfl
    rw [hrun]
    refine ⟨?_, ih2⟩
    rw [ih1, hstep, havg, List.length_cons, pow_succ]
    ring

/-- The creation loop over any list of iterations: one call per iteration, and
one more instance per successful creation. -/
theorem createFold_spec (createOk : Nat → Bool) (l : List Nat)
    (acc : List VibrationTestOutputData × List Nat) :
    (l.foldl (createStep createOk) acc).2 = acc.2 ++ l ∧
    (l.foldl (createStep createOk) acc).1.length =
      acc.1.length + (l.filter (fun i => createOk i)).length := by
  induction l generalizing acc with
  | nil => simp
  | cons i l ih =>
    obtain ⟨h1, h2⟩ := ih (createStep createOk acc i)
    rw [List.foldl_cons, h1, h2]
    refine ⟨by simp [createStep], ?_⟩
    cases hok : createOk i
    · simp [createStep, VibrationTestOutputCreateInstance, hok, List.filter_cons]
    · simp [createStep, VibrationTestOutputCreateInstance, hok, List.filter_cons]
      omega

theorem deliver_sample_count (b : List AccelsData) (s : TaskState) :
    (deliver b s).sample_count = s.sample_count := rfl

theorem deliver_vtd (b : List AccelsData) (s : TaskState) :
    (deliver b s).vtd = feed b s.vtd := rfl

theorem deliver_output (b : List AccelsData) (s : TaskState) :
    (deliver b s).output = s.output := rfl

theorem deliver_buffers (b : List AccelsData) (s : TaskState) :
    (deliver b s).accel_buffer_complex_x = s.accel_buffer_complex_x ∧
    (deliver b s).accel_buffer_complex_y = s.accel_buffer_complex_y ∧
    (deliver b s).accel_buffer_complex_z = s.accel_buffer_complex_z := ⟨rfl, rfl, rfl⟩

theorem period_eq_tick (lib : ArmMath) (n : Nat) (s : TaskState) (b : List AccelsData) :
    period lib n s b = VibrationTestTask_tick lib n (deliver b s) := rfl

theorem sampleBlock_output (s : TaskState) : (sampleBlock s).output = s.output := rfl

theorem setCursor_buffers (s : TaskState) (c : Nat) :
    (setCursor s c).accel_buffer_complex_x = s.accel_buffer_complex_x ∧
    (setCursor s c).accel_buffer_complex_y = s.accel_buffer_complex_y ∧
    (setCursor s c).accel_buffer_complex_z = s.accel_buffer_complex_z := ⟨rfl, rfl, rfl⟩

theorem start_output (createOk : Nat → Bool) (n : Nat) (vtd : VibrationTest_data)
    (gx gy gz : Nat → ℚ) (store : List VibrationTestOutputData) :
    (VibrationTestTask_start createOk n vtd gx gy gz store).output =
      (createInstances createOk n store).1 := rfl

/-- A tick with readings that does not bring the cursor back to 0 ends after
the sample block. -/
theorem tick_continue (lib : ArmMath) (n : Nat) (s : TaskState) (h : s.vtd.accels_sum_count ≠ 0)
    (hw : advanceCursor n s.sample_count ≠ 0) :
    VibrationTestTask_tick lib n s =
      (setCursor (sampleBlock s) (advanceCursor n s.sample_count), []) := by
  have hs : (sampleBlock s).sample_count = s.sample_count := rfl
  unfold VibrationTestTask_tick
  rw [if_pos h]
  simp only [hs, setCursor_sample_count, hw, if_false]

/-- The sample block writes the two lanes of the cursor and no other. -/
theorem sampleBlock_other_lanes (s : TaskState) (i : Nat) (h1 : i ≠ s.sample_count * 2)
    (h2 : i ≠ s.sample_count * 2 + 1) :
    (sampleBlock s).accel_buffer_complex_x i = s.accel_buffer_complex_x i ∧
    (sampleBlock s).accel_buffer_complex_y i = s.accel_buffer_complex_y i ∧
    (sampleBlock s).accel_buffer_complex_z i = s.accel_buffer_complex_z i := by
  simp [sampleBlock, Function.update, h1, h2]

/-- Along a run in which every tick finds readings and the cursor stays below
`min n 256`, no window block runs: the cursor counts the periods, the store is
untouched, and so is every lane outside the entries the cursor has passed. -/
theorem run_filling (lib : ArmMath) (n : Nat) (hn : 0 < n) (batches : List (List AccelsData)) :
    ∀ s : TaskState, s.sample_count + batches.length < min n 256 →
    (s.vtd.accels_sum_count = 0 ∧ s.vtd.access_accels = false) →
    (∀ b ∈ batches, b.length % 65536 ≠ 0) →
    (run lib n s batches).1.sample_count = s.sample_count + batches.length ∧
    ((run lib n s batches).1.vtd.accels_sum_count = 0 ∧
      (run lib n s batches).1.vtd.access_accels = false) ∧
    (run lib n s batches).1.output = s.output ∧
    ∀ i, (i < 2 * s.sample_count ∨ 2 * (s.sample_count + batches.length) ≤ i) →
      (run lib n s batches).1.accel_buffer_complex_x i = s.accel_buffer_complex_x i ∧
      (run lib n s batches).1.accel_buffer_complex_y i = s.accel_buffer_complex_y i ∧
      (run lib n s batches).1.accel_buffer_complex_z i = s.accel_buffer_complex_z i := by
  induction batches with
  | nil =>
    intro s _ hclean _
    exact ⟨rfl, hclean, rfl, fun i _ => ⟨rfl, rfl, rfl⟩⟩
  | cons b rest ih =>
    intro s hcur hclean hq
    rw [List.length_cons] at hcur
    have hb : (feed b s.vtd).accels_sum_count ≠ 0 :=
      period_qualifying s b hclean (hq b (List.mem_cons_self _ _))
    have hadv : advanceCursor n s.sample_count = s.sample_count + 1 := by
      rw [advanceCursor_eq n s.sample_count hn (by omega), Nat.mod_eq_of_lt (by omega)]
    have hper : period lib n s b =
        (setCursor (sampleBlock (deliver b s)) (s.sample_count + 1), []) := by
      have := tick_continue lib n (deliver b s) hb (by
        show advanceCursor n s.sample_count ≠ 0
        rw [hadv]; omega)
      rw [show advanceCursor n (deliver b s).sample_count = s.sample_count + 1 from hadv] at this
      exact this
    have hrun : (run lib n s (b :: rest)).1 = (run lib n (period lib n s b).1 rest).1 := rfl
    rw [hrun, hper]
    obtain ⟨ih1, ih2, ih3, ih4⟩ := ih (setCursor (sampleBlock (deliver b s)) (s.sample_count + 1))
      (by rw [setCursor_sample_count]; omega) ⟨rfl, rfl⟩
      (fun b2 hb2 => hq b2 (List.mem_cons_of_mem _ hb2))
    rw [setCursor_sample_count] at ih1 ih4
    refine ⟨by rw [ih1, List.length_cons]; omega, ih2, ih3, ?_⟩
    intro i hi
    rw [List.length_cons] at hi
    obtain ⟨hx, hy, hz⟩ := ih4 i (by omega)
    obtain ⟨gx, gy, gz⟩ := sampleBlock_other_lanes (deliver b s) i
      (by show i ≠ s.sample_count * 2; omega) (by show i ≠ s.sample_count * 2 + 1; omega)
    exact ⟨hx.trans gx, hy.trans gy, hz.trans gz⟩

/-- Store after the window block when the transform initialisation succeeds:
the magnitudes of the transforms of the three windows at the indices below
`min (n/2) c`, the old records elsewhere. -/
theorem processWindow_records (lib : ArmMath) (n : Nat) (w : TaskState)
    (hinit : lib.arm_cfft_radix4_init_f32 n = arm_status.ARM_MATH_SUCCESS) (j : Nat) :
    (processWindow lib n w).1.output[j]? =
      if j < min (n / 2) w.output.length then some (spectrumRecord lib n w j)
      else w.output[j]? := by
  obtain ⟨-, ho⟩ := processWindow_spec lib n w
  obtain ⟨bx, bY, bz⟩ := axisFold_buffers lib n (lib.arm_cfft_radix4_init_f32 n)
    (w, [Event.cfft_init n])
  rw [ho j]
  by_cases hj : j < min (n / 2) w.output.length
  · have hj2 : j < n / 2 := lt_of_lt_of_le hj (min_le_left _ _)
    rw [if_pos hj, if_pos hj]
    simp only [recordAt, spectrumRecord, bx, bY, bz, if_pos hinit,
      transformBuffer_low lib n _ j hj2]
  · rw [if_neg hj, if_neg hj]

/-! ## The claims -/

/-- C1 (the code departs from the claim). With `fft_window_size = 1024`, from
cursor 0 and 256 ticks that each find one reading, the window block (transform
initialisation, publish, erase) runs on tick 256 and the cursor is back at 0,
although 256 is not a multiple of 1024: `sample_count` is a `uint8_t`, so the
increment of line 246 wraps it from 255 to 0 before it can reach 1024. -/
theorem C1_window_block_after_256_ticks_at_1024 :
    (run sampleMath 1024 (exampleState 0 0 512) (List.replicate 256 [restReading])).2.length = 256 ∧
    Event.erase ∈
      (run sampleMath 1024 (exampleState 0 0 512) (List.replicate 256 [restReading])).2.getD 255 [] ∧
    Event.cfft_init 1024 ∈
      (run sampleMath 1024 (exampleState 0 0 512) (List.replicate 256 [restReading])).2.getD 255 [] ∧
    (run sampleMath 1024 (exampleState 0 0 512) (List.replicate 256 [restReading])).1.sample_count = 0 ∧
    ¬ (1024 ∣ 256) := by
  obtain ⟨h1, h2, h3⟩ := run_qualifying sampleMath 1024 (by norm_num)
    (List.replicate 256 [restReading]) (exampleState 0 0 512) (by decide) ⟨rfl, rfl⟩
    (by intro b hb; rw [List.eq_of_mem_replicate hb]; decide)
  have hlen : (List.replicate 256 [restReading]).length = 256 := List.length_replicate _ _
  have herase := (h3 255 (by rw [hlen]; norm_num)).2 (by decide)
  refine ⟨h2.trans hlen, herase, run_erase_init _ _ _ _ _ herase, ?_, by decide⟩
  rw [h1, hlen]
  decide

/-- C2 (the code departs from the claim). With a transform initialisation that
returns `ARM_MATH_ARGUMENT_ERROR`, window size 16, cursor 15, one reading in the
accumulators and a store of four zero records whose buffers hold 7 in the low
lanes: the completing tick skips the three transforms but still runs the
publish loop, so `VibrationTestOutputInstSet` is called for the indices 0 to 3
and every record of the store is overwritten with raw buffer lanes. -/
theorem C2_publish_runs_when_init_fails :
    failingMath.arm_cfft_radix4_init_f32 16 ≠ arm_status.ARM_MATH_SUCCESS ∧
    (exampleState 15 1 4).output = List.replicate 4 { x := 0, y := 0, z := 0 } ∧
    (VibrationTestTask_tick failingMath 16 (exampleState 15 1 4)).2 =
      [Event.cfft_init 16,
        Event.InstSet 0 { x := 7, y := 7, z := 7 }, Event.InstSet 1 { x := 7, y := 7, z := 7 },
        Event.InstSet 2 { x := 7, y := 7, z := 7 }, Event.InstSet 3 { x := 7, y := 7, z := 7 },
        Event.erase] ∧
    (VibrationTestTask_tick failingMath 16 (exampleState 15 1 4)).1.output =
      List.replicate 4 { x := 7, y := 7, z := 7 } := by
  have hw : advanceCursor 16 (exampleState 15 1 4).sample_count = 0 := by decide
  have hc : (exampleState 15 1 4).vtd.accels_sum_count ≠ 0 := by decide
  obtain ⟨he, ho⟩ := processWindow_spec failingMath 16
    (setCursor (sampleBlock (exampleState 15 1 4)) 0)
  have hrec : ∀ j, j < 4 → recordAt ((List.range 3).foldl
      (axisStep failingMath 16 (failingMath.arm_cfft_radix4_init_f32 16))
      ((setCursor (sampleBlock (exampleState 15 1 4)) 0), [Event.cfft_init 16])).1 j =
      { x := 7, y := 7, z := 7 } := by
    intro j hj
    obtain ⟨bx, bY, bz⟩ := axisFold_buffers failingMath 16 (failingMath.arm_cfft_radix4_init_f32 16)
      ((setCursor (sampleBlock (exampleState 15 1 4)) 0), [Event.cfft_init 16])
    have h30 : j ≠ 30 := by omega
    have h31 : j ≠ 31 := by omega
    have hst : failingMath.arm_cfft_radix4_init_f32 16 ≠ arm_status.ARM_MATH_SUCCESS := by decide
    simp only [recordAt, bx, bY, bz, if_neg hst]
    simp [sampleBlock, setCursor, exampleState, Function.update, h30, h31]
  refine ⟨by decide, rfl, ?_, ?_⟩
  · rw [tick_window failingMath 16 _ hc hw, he]
    have hlen : (setCursor (sampleBlock (exampleState 15 1 4)) 0).output.length = 4 := rfl
    simp only [hlen]
    have hr : List.range (min (16 / 2) 4) = [0, 1, 2, 3] := by decide
    rw [hr]
    simp only [List.map_cons, List.map_nil, hrec 0 (by norm_num), hrec 1 (by norm_num),
      hrec 2 (by norm_num), hrec 3 (by norm_num)]
    simp [failingMath]
  · rw [tick_window failingMath 16 _ hc hw]
    apply List.ext_getElem?
    intro j
    rw [ho j]
    have hlen : (setCursor (sampleBlock (exampleState 15 1 4)) 0).output.length = 4 := rfl
    simp only [hlen]
    by_cases hj : j < 4
    · have hm : j < min (16 / 2) 4 := by simpa using hj
      rw [if_pos hm, hrec j hj]
      rw [List.getElem?_replicate, if_pos hj]
    · have hm : ¬ j < min (16 / 2) 4 := by simpa using hj
      rw [if_neg hm]
      have h1 : (setCursor (sampleBlock (exampleState 15 1 4)) 0).output.length ≤ j := by rw [hlen]; omega
      rw [List.getElem?_eq_none h1, List.getElem?_eq_none (by simp; omega)]

/-- C3. On a tick with readings that completes the window and whose transform
initialisation succeeds, the `InstSet` calls are exactly one per index `j` below
`min (N/2) c` (`c` the instance count), in increasing order, each carrying
`(|X[j]|, |Y[j]|, |Z[j]|)` for the transforms `X`, `Y`, `Z` of the windows left
by the sample block; the store holds these records at those indices and its old
records elsewhere, so nothing of an index from `N/2` on is written. -/
theorem C3_published_magnitudes (lib : ArmMath) (fft_window_size : Nat) (s : TaskState)
    (h : s.vtd.accels_sum_count ≠ 0)
    (hw : advanceCursor fft_window_size s.sample_count = 0)
    (hinit : lib.arm_cfft_radix4_init_f32 fft_window_size = arm_status.ARM_MATH_SUCCESS) :
    (VibrationTestTask_tick lib fft_window_size s).2 =
      [Event.cfft_init fft_window_size,
        Event.cfft 0, Event.cmplx_mag 0 (fft_window_size >>> 1),
        Event.cfft 1, Event.cmplx_mag 1 (fft_window_size >>> 1),
        Event.cfft 2, Event.cmplx_mag 2 (fft_window_size >>> 1)] ++
      (List.range (min (fft_window_size / 2) (UAVObjGetNumInstances s.output))).map
        (fun j => Event.InstSet j (spectrumRecord lib fft_window_size (sampleBlock s) j)) ++
      [Event.erase] ∧
    ∀ j, (VibrationTestTask_tick lib fft_window_size s).1.output[j]? =
      if j < min (fft_window_size / 2) (UAVObjGetNumInstances s.output) then
        some (spectrumRecord lib fft_window_size (sampleBlock s) j)
      else s.output[j]? := by
  obtain ⟨he, ho⟩ := processWindow_spec lib fft_window_size (setCursor (sampleBlock s) 0)
  obtain ⟨bx, bY, bz⟩ := axisFold_buffers lib fft_window_size
    (lib.arm_cfft_radix4_init_f32 fft_window_size)
    (setCursor (sampleBlock s) 0, [Event.cfft_init fft_window_size])
  have hout : (setCursor (sampleBlock s) 0).output = s.output := rfl
  have hrec : ∀ j, j < min (fft_window_size / 2) s.output.length →
      recordAt ((List.range 3).foldl
        (axisStep lib fft_window_size (lib.arm_cfft_radix4_init_f32 fft_window_size))
        (setCursor (sampleBlock s) 0, [Event.cfft_init fft_window_size])).1 j =
      spectrumRecord lib fft_window_size (sampleBlock s) j := by
    intro j hj
    have hj2 : j < fft_window_size / 2 := lt_of_lt_of_le hj (min_le_left _ _)
    simp only [recordAt, spectrumRecord, bx, bY, bz, if_pos hinit,
      transformBuffer_low lib fft_window_size _ j hj2]
    rfl
  rw [tick_window lib fft_window_size s h hw]
  unfold UAVObjGetNumInstances
  refine ⟨?_, ?_⟩
  · rw [he, hout, if_pos hinit]
    congr 2
    apply List.map_congr_left
    intro j hj
    rw [hrec j (List.mem_range.mp hj)]
  · intro j
    rw [ho j, hout]
    by_cases hj : j < min (fft_window_size / 2) s.output.length
    · rw [if_pos hj, if_pos hj, hrec j hj]
    · rw [if_neg hj, if_neg hj]

theorem C3_published_magnitudes_witness :
    (exampleState 15 1 4).vtd.accels_sum_count ≠ 0 ∧
    advanceCursor 16 (exampleState 15 1 4).sample_count = 0 ∧
    sampleMath.arm_cfft_radix4_init_f32 16 = arm_status.ARM_MATH_SUCCESS ∧
    (VibrationTestTask_tick sampleMath 16 (exampleState 15 1 4)).1.output[2]? =
      some (spectrumRecord sampleMath 16 (sampleBlock (exampleState 15 1 4)) 2) ∧
    (VibrationTestTask_tick sampleMath 16 (exampleState 15 1 4)).1.output[5]? = none := by
  have h := (C3_published_magnitudes sampleMath 16 (exampleState 15 1 4)
    (by decide) (by decide) (by decide)).2
  refine ⟨by decide, by decide, by decide, ?_, ?_⟩
  · rw [h 2]
    have hm : 2 < min (16 / 2) (UAVObjGetNumInstances (exampleState 15 1 4).output) := by decide
    rw [if_pos hm]
  · rw [h 5]
    have hm : ¬ 5 < min (16 / 2) (UAVObjGetNumInstances (exampleState 15 1 4).output) := by decide
    rw [if_neg hm]
    rfl

/-- C4. For every window size and every store, the publish loop calls
`VibrationTestOutputInstSet` for the indices `0, 1, ..., min (N/2) c - 1` in
this order, once each (`c` the instance count of the store), each with the
record read from the three buffers at that index; hence never with an index
`j ≥ c` or `j ≥ N/2`. The loop is a total function: it always completes. -/
theorem C4_publish_loop_indices (fft_window_size : Nat) (s : TaskState) :
    (publishLoop fft_window_size (s, [])).2 =
      (List.range (min (fft_window_size / 2) (UAVObjGetNumInstances s.output))).map
        (fun j => Event.InstSet j (recordAt s j)) ∧
    (∀ j d, Event.InstSet j d ∈ (publishLoop fft_window_size (s, [])).2 →
      j < UAVObjGetNumInstances s.output ∧ j < fft_window_size / 2) ∧
    UAVObjGetNumInstances (publishLoop fft_window_size (s, [])).1.output =
      UAVObjGetNumInstances s.output := by
  have he := (publishRange_spec (fft_window_size >>> 1) (s, [])).1
  rw [shiftRight_one] at he
  have hev : (publishLoop fft_window_size (s, [])).2 =
      (List.range (min (fft_window_size / 2) (UAVObjGetNumInstances s.output))).map
        (fun j => Event.InstSet j (recordAt s j)) := by
    unfold publishLoop UAVObjGetNumInstances
    rw [shiftRight_one, he]
    rfl
  refine ⟨hev, ?_, ?_⟩
  · intro j d hmem
    rw [hev, List.mem_map] at hmem
    obtain ⟨i, hi, heq⟩ := hmem
    have hij : i = j := by injection heq
    rw [List.mem_range, hij] at hi
    exact ⟨lt_of_lt_of_le hi (min_le_right _ _), lt_of_lt_of_le hi (min_le_left _ _)⟩
  · unfold publishLoop UAVObjGetNumInstances
    exact (publishFold_frame _ (s, [])).2.2.2.2.2

theorem C4_publish_loop_indices_witness :
    (publishLoop 16 (exampleState 0 0 3, [])).2 =
      [Event.InstSet 0 { x := 7, y := 7, z := 7 }, Event.InstSet 1 { x := 7, y := 7, z := 7 },
        Event.InstSet 2 { x := 7, y := 7, z := 7 }] := by
  rw [(C4_publish_loop_indices 16 (exampleState 0 0 3)).1]
  have hr : List.range (min (16 / 2) (UAVObjGetNumInstances (exampleState 0 0 3).output)) =
      [0, 1, 2] := by decide
  rw [hr]
  rfl

/-- C5. After a tick that finds `accels_sum_count = n ≠ 0`, each bias equals
`(1/100) * (sum / n) + (1 - 1/100) * bias_before` for its own axis; and the new
bias of an axis is the same in any other state (and window size, and library)
that agrees on the count and on that axis's sum and bias. -/
theorem C5_bias_update (lib : ArmMath) (fft_window_size : Nat) (s : TaskState)
    (h : s.vtd.accels_sum_count ≠ 0) :
    ((VibrationTestTask_tick lib fft_window_size s).1.vtd.accels_static_bias_x =
        (1 / 100) * (s.vtd.accels_data_sum_x / (s.vtd.accels_sum_count : ℚ)) +
          (1 - 1 / 100) * s.vtd.accels_static_bias_x ∧
      (VibrationTestTask_tick lib fft_window_size s).1.vtd.accels_static_bias_y =
        (1 / 100) * (s.vtd.accels_data_sum_y / (s.vtd.accels_sum_count : ℚ)) +
          (1 - 1 / 100) * s.vtd.accels_static_bias_y ∧
      (VibrationTestTask_tick lib fft_window_size s).1.vtd.accels_static_bias_z =
        (1 / 100) * (s.vtd.accels_data_sum_z / (s.vtd.accels_sum_count : ℚ)) +
          (1 - 1 / 100) * s.vtd.accels_static_bias_z) ∧
    ∀ (lib2 : ArmMath) (size2 : Nat) (s2 : TaskState),
      s2.vtd.accels_sum_count = s.vtd.accels_sum_count →
      (s2.vtd.accels_data_sum_x = s.vtd.accels_data_sum_x →
        s2.vtd.accels_static_bias_x = s.vtd.accels_static_bias_x →
        (VibrationTestTask_tick lib2 size2 s2).1.vtd.accels_static_bias_x =
          (VibrationTestTask_tick lib fft_window_size s).1.vtd.accels_static_bias_x) ∧
      (s2.vtd.accels_data_sum_y = s.vtd.accels_data_sum_y →
        s2.vtd.accels_static_bias_y = s.vtd.accels_static_bias_y →
        (VibrationTestTask_tick lib2 size2 s2).1.vtd.accels_static_bias_y =
          (VibrationTestTask_tick lib fft_window_size s).1.vtd.accels_static_bias_y) ∧
      (s2.vtd.accels_data_sum_z = s.vtd.accels_data_sum_z →
        s2.vtd.accels_static_bias_z = s.vtd.accels_static_bias_z →
        (VibrationTestTask_tick lib2 size2 s2).1.vtd.accels_static_bias_z =
          (VibrationTestTask_tick lib fft_window_size s).1.vtd.accels_static_bias_z) := by
  refine ⟨?_, ?_⟩
  · rw [tick_vtd lib fft_window_size s h]
    exact ⟨rfl, rfl, rfl⟩
  · intro lib2 size2 s2 hn
    have h2 : s2.vtd.accels_sum_count ≠ 0 := by rw [hn]; exact h
    rw [tick_vtd lib fft_window_size s h, tick_vtd lib2 size2 s2 h2]
    refine ⟨?_, ?_, ?_⟩ <;> intro hs hb <;> simp only [sampleBlock, hn, hs, hb]

theorem C5_bias_update_witness :
    (exampleState 3 4 8).vtd.accels_sum_count ≠ 0 ∧
    (VibrationTestTask_tick sampleMath 16 (exampleState 3 4 8)).1.vtd.accels_static_bias_x = 1 / 100 ∧
    (VibrationTestTask_tick sampleMath 16 (exampleState 3 4 8)).1.vtd.accels_static_bias_z = 981 / 100 := by
  have h := (C5_bias_update sampleMath 16 (exampleState 3 4 8) (by decide)).1
  refine ⟨by decide, ?_, ?_⟩
  · rw [h.1]; norm_num [exampleState, vtdAtStart]
  · rw [h.2.2]; norm_num [exampleState, vtdAtStart]

/-- C6. From drained accumulators, if every period of a run delivers between 1
and 65535 readings whose average on an axis is `t`, then for the bias `b k` of
that axis after `k` periods: `b k - t = (99/100)^k * (b 0 - t)`; the distance
`|b k - t|` does not increase; `b k` stays on the side of `t` where `b 0` is;
and after 460 periods the distance is at most a hundredth of the initial one. -/
theorem C6_bias_convergence (lib : ArmMath) (fft_window_size : Nat) (s : TaskState)
    (batches : List (List AccelsData)) (ax : Axis) (t : ℚ)
    (hd : Drained s.vtd)
    (hq : ∀ b ∈ batches, 0 < b.length ∧ b.length < 65536 ∧ batchAverage ax b = t) :
    (∀ k, k ≤ batches.length →
      biasAfter lib fft_window_size s batches ax k - t =
        (99 / 100) ^ k * (biasOf ax s.vtd - t)) ∧
    (∀ k, k < batches.length →
      |biasAfter lib fft_window_size s batches ax (k + 1) - t| ≤
        |biasAfter lib fft_window_size s batches ax k - t|) ∧
    (∀ k, k ≤ batches.length →
      0 ≤ (biasAfter lib fft_window_size s batches ax k - t) * (biasOf ax s.vtd - t)) ∧
    (460 ≤ batches.length →
      |biasAfter lib fft_window_size s batches ax 460 - t| ≤ |biasOf ax s.vtd - t| / 100) := by
  have hclosed : ∀ k, k ≤ batches.length →
      biasAfter lib fft_window_size s batches ax k - t =
        (99 / 100) ^ k * (biasOf ax s.vtd - t) := by
    intro k hk
    have hrun := (run_bias lib fft_window_size ax t (batches.take k) s hd
      (fun b hb => hq b (List.mem_of_mem_take hb))).1
    rw [List.length_take, min_eq_left hk] at hrun
    exact hrun
  have hpos : ∀ k : Nat, (0 : ℚ) ≤ (99 / 100) ^ k := fun k => pow_nonneg (by norm_num) k
  refine ⟨hclosed, ?_, ?_, ?_⟩
  · intro k hk
    rw [hclosed (k + 1) hk, hclosed k (le_of_lt hk), abs_mul, abs_mul, abs_of_nonneg (hpos _),
      abs_of_nonneg (hpos _), pow_succ]
    have h1 : (99 / 100 : ℚ) ^ k * (99 / 100) ≤ (99 / 100) ^ k := by
      have := hpos k
      linarith
    exact mul_le_mul_of_nonneg_right h1 (abs_nonneg _)
  · intro k hk
    rw [hclosed k hk, mul_assoc]
    exact mul_nonneg (hpos k) (mul_self_nonneg _)
  · intro hk
    rw [hclosed 460 hk, abs_mul, abs_of_nonneg (hpos _)]
    have h460 : ((99 : ℚ) / 100) ^ 460 ≤ 1 / 100 := by norm_num
    have := mul_le_mul_of_nonneg_right h460 (abs_nonneg (biasOf ax s.vtd - t))
    linarith

theorem C6_bias_convergence_witness :
    Drained (exampleState 0 0 8).vtd ∧
    (∀ b ∈ List.replicate 460 [restReading],
      0 < b.length ∧ b.length < 65536 ∧ batchAverage Axis.x b = 1) ∧
    |biasAfter sampleMath 16 (exampleState 0 0 8) (List.replicate 460 [restReading]) Axis.x 460 - 1| ≤
      |biasOf Axis.x (exampleState 0 0 8).vtd - 1| / 100 := by
  have hd : Drained (exampleState 0 0 8).vtd := by
    simp [Drained, exampleState, vtdAtStart]
  have hq : ∀ b ∈ List.replicate 460 [restReading],
      0 < b.length ∧ b.length < 65536 ∧ batchAverage Axis.x b = 1 := by
    intro b hb
    rw [List.eq_of_mem_replicate hb]
    simp [batchAverage, componentOf, restReading]
  exact ⟨hd, hq, (C6_bias_convergence sampleMath 16 (exampleState 0 0 8)
    (List.replicate 460 [restReading]) Axis.x 1 hd hq).2.2.2
    (by rw [List.length_replicate])⟩

/-- C7. A tick that finds `accels_sum_count = 0` returns the state it was given,
every component included, and makes no call: no transform, no publish, no erase. -/
theorem C7_idle_tick_is_identity (lib : ArmMath) (fft_window_size : Nat) (s : TaskState)
    (h : s.vtd.accels_sum_count = 0) :
    VibrationTestTask_tick lib fft_window_size s = (s, []) :=
  tick_idle lib fft_window_size s h

theorem C7_idle_tick_is_identity_witness :
    (exampleState 5 0 8).vtd.accels_sum_count = 0 ∧
    VibrationTestTask_tick sampleMath 64 (exampleState 5 0 8) = (exampleState 5 0 8, []) :=
  ⟨rfl, C7_idle_tick_is_identity sampleMath 64 (exampleState 5 0 8) rfl⟩

/-- C8 as stated fails: with the count at 65535 and the flag clear, the callback
leaves the count at 0, not at the previous value plus one. -/
theorem C8_count_wraps_at_65535 :
    fullCounter.access_accels = false ∧
    (accelsUpdatedCb restReading fullCounter).accels_sum_count = 0 ∧
    (accelsUpdatedCb restReading fullCounter).accels_sum_count ≠ fullCounter.accels_sum_count + 1 := by
  decide

/-- C8 amended. With the busy flag set the callback returns the data unchanged.
Otherwise the count becomes the previous value plus one modulo 65536, the flag
and the biases are unchanged, and each of the three sums becomes the `float` sum
of its previous value and `x`, `y`, `z`, whatever the `float` type and its
addition are (first part); over exact arithmetic, that is with rationals and
the exact sum, each sum grows by `x`, `y`, `z` (second part), and the rational
callback is the abstract one at the exact sum (third part). -/
theorem C8_accelsUpdatedCb_effect (a : AccelsData) (d : VibrationTest_data) :
    (∀ (F : Type) (fadd : F → F → F) (aF : AccelsDataF F) (dF : VibrationTest_dataF F),
      accelsUpdatedCbF fadd aF dF =
        if dF.access_accels = true then dF
        else
          { access_accels := dF.access_accels
            accels_sum_count := (dF.accels_sum_count + 1) % 65536
            accels_data_sum_x := fadd dF.accels_data_sum_x aF.x
            accels_data_sum_y := fadd dF.accels_data_sum_y aF.y
            accels_data_sum_z := fadd dF.accels_data_sum_z aF.z
            accels_static_bias_x := dF.accels_static_bias_x
            accels_static_bias_y := dF.accels_static_bias_y
            accels_static_bias_z := dF.accels_static_bias_z }) ∧
    accelsUpdatedCb a d =
      (if d.access_accels = true then d
      else
        { access_accels := d.access_accels
          accels_sum_count := (d.accels_sum_count + 1) % 65536
          accels_data_sum_x := d.accels_data_sum_x + a.x
          accels_data_sum_y := d.accels_data_sum_y + a.y
          accels_data_sum_z := d.accels_data_sum_z + a.z
          accels_static_bias_x := d.accels_static_bias_x
          accels_static_bias_y := d.accels_static_bias_y
          accels_static_bias_z := d.accels_static_bias_z }) ∧
    (accelsUpdatedCb a d).asFloat = accelsUpdatedCbF (fun u v => u + v) a.asFloat d.asFloat := by
  refine ⟨?_, ?_, ?_⟩
  · intro F fadd aF dF
    unfold accelsUpdatedCbF
    cases h : dF.access_accels <;> simp
  · unfold accelsUpdatedCb
    cases h : d.access_accels <;> simp
  · unfold accelsUpdatedCb accelsUpdatedCbF
    cases h : d.access_accels <;>
      simp [VibrationTest_data.asFloat, AccelsData.asFloat, h]

/-- C9. With the module enabled (built in, or enabled in the module settings)
and pairwise different enumerators: `VibrationTestInitialize` returns 0 exactly
when the configured value is one of the four enumerators, and then
`fft_window_size` is the corresponding one of 16, 64, 256, 1024 and the module
stays enabled; for any other value it returns -1, leaves `fft_window_size` as it
was and clears `module_enabled`, and `VibrationTestStart` on the resulting state
returns -1, makes no call (no callback registration, no allocation, no task
creation) and leaves the state as it is. -/
theorem C9_startup_configuration (env : StartupEnv) (m : ModuleState)
    (hd : env.labelsDistinct) (hen : env.builtin = true ∨ env.state_enabled = true) :
    ((VibrationTestInitialize env m).ret = 0 ↔
      (env.fft_window_size_enum = env.FFTWINDOWSIZE_16 ∨
        env.fft_window_size_enum = env.FFTWINDOWSIZE_64 ∨
        env.fft_window_size_enum = env.FFTWINDOWSIZE_256 ∨
        env.fft_window_size_enum = env.FFTWINDOWSIZE_1024)) ∧
    (env.fft_window_size_enum = env.FFTWINDOWSIZE_16 →
      (VibrationTestInitialize env m).ret = 0 ∧
      (VibrationTestInitialize env m).state.fft_window_size = 16 ∧
      (VibrationTestInitialize env m).state.module_enabled = true) ∧
    (env.fft_window_size_enum = env.FFTWINDOWSIZE_64 →
      (VibrationTestInitialize env m).ret = 0 ∧
      (VibrationTestInitialize env m).state.fft_window_size = 64 ∧
      (VibrationTestInitialize env m).state.module_enabled = true) ∧
    (env.fft_window_size_enum = env.FFTWINDOWSIZE_256 →
      (VibrationTestInitialize env m).ret = 0 ∧
      (VibrationTestInitialize env m).state.fft_window_size = 256 ∧
      (VibrationTestInitialize env m).state.module_enabled = true) ∧
    (env.fft_window_size_enum = env.FFTWINDOWSIZE_1024 →
      (VibrationTestInitialize env m).ret = 0 ∧
      (VibrationTestInitialize env m).state.fft_window_size = 1024 ∧
      (VibrationTestInitialize env m).state.module_enabled = true) ∧
    (¬ (env.fft_window_size_enum = env.FFTWINDOWSIZE_16 ∨
        env.fft_window_size_enum = env.FFTWINDOWSIZE_64 ∨
        env.fft_window_size_enum = env.FFTWINDOWSIZE_256 ∨
        env.fft_window_size_enum = env.FFTWINDOWSIZE_1024) →
      (VibrationTestInitialize env m).ret = -1 ∧
      (VibrationTestInitialize env m).state.module_enabled = false ∧
      (VibrationTestInitialize env m).state.fft_window_size = m.fft_window_size ∧
      VibrationTestStart env (VibrationTestInitialize env m).state =
        { ret := -1, state := (VibrationTestInitialize env m).state, calls := [] }) := by
  obtain ⟨d1, d2, d3, d4, d5, d6⟩ := hd
  have hen2 : (if env.builtin = true then true else env.state_enabled) = true := by
    rcases hen with h | h <;> simp [h]
  by_cases h16 : env.fft_window_size_enum = env.FFTWINDOWSIZE_16
  · simp [VibrationTestInitialize, hen2, h16, d1, d2, d3]
  · by_cases h64 : env.fft_window_size_enum = env.FFTWINDOWSIZE_64
    · simp [VibrationTestInitialize, hen2, h64, d1.symm, d4, d5]
    · by_cases h256 : env.fft_window_size_enum = env.FFTWINDOWSIZE_256
      · simp [VibrationTestInitialize, hen2, h256, d2.symm, d4.symm, d6]
      · by_cases h1024 : env.fft_window_size_enum = env.FFTWINDOWSIZE_1024
        · simp [VibrationTestInitialize, hen2, h1024, d3.symm, d5.symm, d6.symm]
        · simp [VibrationTestInitialize, VibrationTestStart, hen2, h16, h64, h256, h1024]

theorem C9_startup_configuration_witness :
    (exampleEnv 7).labelsDistinct ∧
    ((exampleEnv 7).builtin = true ∨ (exampleEnv 7).state_enabled = true) ∧
    (VibrationTestInitialize (exampleEnv 7) bootState).ret = -1 ∧
    (VibrationTestInitialize (exampleEnv 7) bootState).state.module_enabled = false ∧
    (VibrationTestStart (exampleEnv 7) (VibrationTestInitialize (exampleEnv 7) bootState).state).calls
      = [] := by
  have hd : (exampleEnv 7).labelsDistinct := by
    simp [StartupEnv.labelsDistinct, exampleEnv]
  have h := (C9_startup_configuration (exampleEnv 7) bootState hd (Or.inr rfl)).2.2.2.2.2
    (by simp [exampleEnv])
  exact ⟨hd, Or.inr rfl, h.1, h.2.1, by rw [h.2.2.2]⟩

/-- C10. After a tick with readings that completes the window, every lane below
`2 * N` of each of the three buffers is zero, whatever the transform
initialisation returned and whatever the store holds. -/
theorem C10_buffers_zero_after_window (lib : ArmMath) (fft_window_size : Nat) (s : TaskState)
    (h : s.vtd.accels_sum_count ≠ 0)
    (hw : advanceCursor fft_window_size s.sample_count = 0) :
    ∀ i, i < 2 * fft_window_size →
      (VibrationTestTask_tick lib fft_window_size s).1.accel_buffer_complex_x i = 0 ∧
      (VibrationTestTask_tick lib fft_window_size s).1.accel_buffer_complex_y i = 0 ∧
      (VibrationTestTask_tick lib fft_window_size s).1.accel_buffer_complex_z i = 0 := by
  intro i hi
  rw [tick_window lib fft_window_size s h hw]
  exact processWindow_erased lib fft_window_size _ i (by omega)

theorem C10_buffers_zero_after_window_witness :
    (exampleState 15 1 4).vtd.accels_sum_count ≠ 0 ∧
    advanceCursor 16 (exampleState 15 1 4).sample_count = 0 ∧
    (30 < 2 * 16 ∧
      (VibrationTestTask_tick failingMath 16 (exampleState 15 1 4)).1.accel_buffer_complex_x 30 = 0 ∧
      (VibrationTestTask_tick sampleMath 16 (exampleState 15 1 4)).1.accel_buffer_complex_z 0 = 0) :=
  ⟨by decide, by decide, by decide,
    (C10_buffers_zero_after_window failingMath 16 (exampleState 15 1 4) (by decide) (by decide)
      30 (by decide)).1,
    (C10_buffers_zero_after_window sampleMath 16 (exampleState 15 1 4) (by decide) (by decide)
      0 (by decide)).2.2⟩

/-- C11. The loop of lines 191-193 calls `VibrationTestOutputCreateInstance`
exactly `N/2 - 1` times, that is 7, 31, 127 and 511 times for the window sizes
16, 64, 256 and 1024; and when the store held one instance before, every
creation succeeds and `N ≥ 2`, the instance count at the entry of the main loop
is `N/2`, so that the publish loop calls `VibrationTestOutputInstSet` for every
index of `0, ..., N/2 - 1`, in order, skipping none. -/
theorem C11_instances_created (createOk : Nat → Bool) (fft_window_size : Nat)
    (store : List VibrationTestOutputData) :
    (createInstances createOk fft_window_size store).2.length = fft_window_size / 2 - 1 ∧
    ((createInstances createOk 16 store).2.length = 7 ∧
      (createInstances createOk 64 store).2.length = 31 ∧
      (createInstances createOk 256 store).2.length = 127 ∧
      (createInstances createOk 1024 store).2.length = 511) ∧
    (UAVObjGetNumInstances store = 1 → (∀ i, createOk i = true) → 2 ≤ fft_window_size →
      ∀ (vtd : VibrationTest_data) (gx gy gz : Nat → ℚ),
        UAVObjGetNumInstances
          (VibrationTestTask_start createOk fft_window_size vtd gx gy gz store).output =
          fft_window_size / 2 ∧
        (publishLoop fft_window_size
          (VibrationTestTask_start createOk fft_window_size vtd gx gy gz store, [])).2 =
          (List.range (fft_window_size / 2)).map (fun j => Event.InstSet j
            (recordAt (VibrationTestTask_start createOk fft_window_size vtd gx gy gz store) j))) := by
  have hcalls : ∀ n, (createInstances createOk n store).2.length = n / 2 - 1 := by
    intro n
    unfold createInstances
    rw [(createFold_spec createOk _ (store, [])).1, shiftRight_one]
    simp
  refine ⟨hcalls fft_window_size, ⟨hcalls 16, hcalls 64, hcalls 256, hcalls 1024⟩, ?_⟩
  intro h1 hok hn vtd gx gy gz
  have hlen : (createInstances createOk fft_window_size store).1.length = fft_window_size / 2 := by
    unfold createInstances
    rw [(createFold_spec createOk _ (store, [])).2, shiftRight_one]
    have hall : (List.range' 1 (fft_window_size / 2 - 1)).filter (fun i => createOk i) =
        List.range' 1 (fft_window_size / 2 - 1) := by
      apply List.filter_eq_self.mpr
      intro i _
      exact hok i
    have h1' : store.length = 1 := h1
    rw [hall, List.length_range', h1']
    omega
  have hout : (VibrationTestTask_start createOk fft_window_size vtd gx gy gz store).output.length =
      fft_window_size / 2 := hlen
  refine ⟨hout, ?_⟩
  have he := (publishRange_spec (fft_window_size >>> 1)
    (VibrationTestTask_start createOk fft_window_size vtd gx gy gz store, [])).1
  unfold publishLoop
  rw [he, shiftRight_one]
  simp only [hout, min_self, List.nil_append]

theorem C11_instances_created_witness :
    UAVObjGetNumInstances [({ x := 0, y := 0, z := 0 } : VibrationTestOutputData)] = 1 ∧
    UAVObjGetNumInstances (VibrationTestTask_start (fun _ => true) 16 vtdAtStart
      (fun _ => 7) (fun _ => 7) (fun _ => 7) [{ x := 0, y := 0, z := 0 }]).output = 16 / 2 :=
  ⟨rfl, ((C11_instances_created (fun _ => true) 16 [{ x := 0, y := 0, z := 0 }]).2.2
    rfl (fun _ => rfl) (by decide) vtdAtStart (fun _ => 7) (fun _ => 7) (fun _ => 7)).1⟩

/-- C13. On a tick that finds readings, with the cursor at `k`: the write of
lines 223-243 leaves in each buffer, at the real lane `2k`, the average minus
the bias as the same tick has just updated it, which equals
`(99/100) * (avg - bias_before)`; at the imaginary lane `2k+1`, zero; and at
every other lane what was there. The tick goes on from the state this write
leaves (window block when the advanced cursor is 0, nothing more otherwise), and
after the tick the three sums and the count are zero and the busy flag is
clear. -/
theorem C13_sample_write (lib : ArmMath) (fft_window_size : Nat) (s : TaskState)
    (h : s.vtd.accels_sum_count ≠ 0) :
    ((sampleBlock s).accel_buffer_complex_x (2 * s.sample_count) =
        s.vtd.accels_data_sum_x / (s.vtd.accels_sum_count : ℚ) -
          (VibrationTestTask_tick lib fft_window_size s).1.vtd.accels_static_bias_x ∧
      (sampleBlock s).accel_buffer_complex_y (2 * s.sample_count) =
        s.vtd.accels_data_sum_y / (s.vtd.accels_sum_count : ℚ) -
          (VibrationTestTask_tick lib fft_window_size s).1.vtd.accels_static_bias_y ∧
      (sampleBlock s).accel_buffer_complex_z (2 * s.sample_count) =
        s.vtd.accels_data_sum_z / (s.vtd.accels_sum_count : ℚ) -
          (VibrationTestTask_tick lib fft_window_size s).1.vtd.accels_static_bias_z) ∧
    ((sampleBlock s).accel_buffer_complex_x (2 * s.sample_count) =
        (99 / 100) * (s.vtd.accels_data_sum_x / (s.vtd.accels_sum_count : ℚ) -
          s.vtd.accels_static_bias_x) ∧
      (sampleBlock s).accel_buffer_complex_y (2 * s.sample_count) =
        (99 / 100) * (s.vtd.accels_data_sum_y / (s.vtd.accels_sum_count : ℚ) -
          s.vtd.accels_static_bias_y) ∧
      (sampleBlock s).accel_buffer_complex_z (2 * s.sample_count) =
        (99 / 100) * (s.vtd.accels_data_sum_z / (s.vtd.accels_sum_count : ℚ) -
          s.vtd.accels_static_bias_z)) ∧
    ((sampleBlock s).accel_buffer_complex_x (2 * s.sample_count + 1) = 0 ∧
      (sampleBlock s).accel_buffer_complex_y (2 * s.sample_count + 1) = 0 ∧
      (sampleBlock s).accel_buffer_complex_z (2 * s.sample_count + 1) = 0) ∧
    (∀ i, i ≠ 2 * s.sample_count → i ≠ 2 * s.sample_count + 1 →
      (sampleBlock s).accel_buffer_complex_x i = s.accel_buffer_complex_x i ∧
      (sampleBlock s).accel_buffer_complex_y i = s.accel_buffer_complex_y i ∧
      (sampleBlock s).accel_buffer_complex_z i = s.accel_buffer_complex_z i) ∧
    VibrationTestTask_tick lib fft_window_size s =
      (if advanceCursor fft_window_size s.sample_count = 0 then
        processWindow lib fft_window_size (setCursor (sampleBlock s) 0)
      else (setCursor (sampleBlock s) (advanceCursor fft_window_size s.sample_count), [])) ∧
    ((VibrationTestTask_tick lib fft_window_size s).1.vtd.accels_data_sum_x = 0 ∧
      (VibrationTestTask_tick lib fft_window_size s).1.vtd.accels_data_sum_y = 0 ∧
      (VibrationTestTask_tick lib fft_window_size s).1.vtd.accels_data_sum_z = 0 ∧
      (VibrationTestTask_tick lib fft_window_size s).1.vtd.accels_sum_count = 0 ∧
      (VibrationTestTask_tick lib fft_window_size s).1.vtd.access_accels = false) := by
  have hk : s.sample_count * 2 = 2 * s.sample_count := Nat.mul_comm _ _
  have hre : 2 * s.sample_count ≠ 2 * s.sample_count + 1 := by omega
  refine ⟨?_, ?_, ?_, ?_, ?_, ?_⟩
  · rw [tick_vtd lib fft_window_size s h]
    simp [sampleBlock, hk, Function.update, hre]
  · simp only [sampleBlock, hk, Function.update, hre, eq_rec_constant, dite_eq_ite, if_true,
      if_false]
    refine ⟨?_, ?_, ?_⟩ <;> ring
  · simp [sampleBlock, hk, Function.update]
  · intro i h1 h2
    simp [sampleBlock, hk, Function.update, h1, h2]
  · by_cases hw : advanceCursor fft_window_size s.sample_count = 0
    · rw [if_pos hw]
      exact tick_window lib fft_window_size s h hw
    · rw [if_neg hw]
      have hs : (sampleBlock s).sample_count = s.sample_count := rfl
      unfold VibrationTestTask_tick
      rw [if_pos h]
      simp only [hs, setCursor_sample_count, hw, if_false]
  · rw [tick_vtd lib fft_window_size s h]
    exact ⟨rfl, rfl, rfl, rfl, rfl⟩

theorem C13_sample_write_witness :
    (exampleState 3 4 8).vtd.accels_sum_count ≠ 0 ∧
    (sampleBlock (exampleState 3 4 8)).accel_buffer_complex_x (2 * 3) = 99 / 100 ∧
    (sampleBlock (exampleState 3 4 8)).accel_buffer_complex_x (2 * 3 + 1) = 0 ∧
    (VibrationTestTask_tick sampleMath 16 (exampleState 3 4 8)).1.vtd.accels_sum_count = 0 := by
  have h := C13_sample_write sampleMath 16 (exampleState 3 4 8) (by decide)
  refine ⟨by decide, ?_, h.2.2.1.1, h.2.2.2.2.2.2.2.2.1⟩
  have hx := h.2.1.1
  have e : (exampleState 3 4 8).sample_count = 3 := rfl
  rw [e] at hx
  rw [hx]
  norm_num [exampleState, vtdAtStart]

/-- C12 (the code departs from the claim). With `fft_window_size = 1024`, the
buffers entered with 7 in every lane and 255 periods of one reading behind, the
256th tick runs the window block on the windows its sample block leaves and
calls the transform, although entry 256 of the x window still holds what the
stack held: 7 in its real lane `2 * 256` and 7, not 0, in its imaginary lane
`2 * 256 + 1`; with the placeholder library the record published at index 256 is
`7 * 7 + 7 * 7 = 98` on each axis. The 8-bit cursor ends the fill cycle after
256 of the 1024 entries. -/
theorem C12_unwritten_entries_reach_transform_at_1024 :
    period sampleMath 1024 after255 [restReading] =
      processWindow sampleMath 1024 (setCursor (sampleBlock (deliver [restReading] after255)) 0) ∧
    Event.cfft 0 ∈ (period sampleMath 1024 after255 [restReading]).2 ∧
    (sampleBlock (deliver [restReading] after255)).accel_buffer_complex_x (2 * 256) = 7 ∧
    (sampleBlock (deliver [restReading] after255)).accel_buffer_complex_x (2 * 256 + 1) = 7 ∧
    (period sampleMath 1024 after255 [restReading]).1.output[256]? =
      some { x := 98, y := 98, z := 98 } := by
  have hlen255 : (List.replicate 255 [restReading]).length = 255 := List.length_replicate _ _
  have hc0 : entered1024.sample_count = 0 := rfl
  obtain ⟨hcur, hclean, hout, hlanes⟩ := run_filling sampleMath 1024 (by norm_num)
    (List.replicate 255 [restReading]) entered1024
    (by rw [hlen255, hc0]; decide) ⟨rfl, rfl⟩
    (by intro b hb; rw [List.eq_of_mem_replicate hb]; decide)
  rw [hlen255, hc0] at hcur hlanes
  have hcur2 : after255.sample_count = 255 := by
    unfold after255
    rw [hcur]
  have hclean2 : after255.vtd.accels_sum_count = 0 ∧ after255.vtd.access_accels = false := by
    unfold after255
    exact hclean
  have hstore : after255.output.length = 512 := by
    unfold after255
    rw [hout]
    unfold entered1024
    rw [start_output]
    unfold createInstances
    rw [(createFold_spec _ _ _).2, shiftRight_one, List.filter_eq_self.mpr (fun _ _ => rfl),
      List.length_range']
    simp
  have hseven : ∀ i, entered1024.accel_buffer_complex_x i = 7 ∧
      entered1024.accel_buffer_complex_y i = 7 ∧ entered1024.accel_buffer_complex_z i = 7 :=
    fun _ => ⟨rfl, rfl, rfl⟩
  have hgarbage : ∀ i, 510 ≤ i →
      after255.accel_buffer_complex_x i = 7 ∧ after255.accel_buffer_complex_y i = 7 ∧
      after255.accel_buffer_complex_z i = 7 := by
    intro i hi
    obtain ⟨lx, ly, lz⟩ := hlanes i (Or.inr (by omega))
    obtain ⟨sx, sy, sz⟩ := hseven i
    unfold after255
    exact ⟨lx.trans sx, ly.trans sy, lz.trans sz⟩
  have hc : (deliver [restReading] after255).sample_count = 255 :=
    (deliver_sample_count _ _).trans hcur2
  have hwin : ∀ i, 512 ≤ i →
      (sampleBlock (deliver [restReading] after255)).accel_buffer_complex_x i = 7 ∧
      (sampleBlock (deliver [restReading] after255)).accel_buffer_complex_y i = 7 ∧
      (sampleBlock (deliver [restReading] after255)).accel_buffer_complex_z i = 7 := by
    intro i hi
    obtain ⟨gx, gy, gz⟩ := sampleBlock_other_lanes (deliver [restReading] after255) i
      (by rw [hc]; omega) (by rw [hc]; omega)
    obtain ⟨dx, dy, dz⟩ := deliver_buffers [restReading] after255
    obtain ⟨kx, ky, kz⟩ := hgarbage i (by omega)
    rw [dx] at gx
    rw [dy] at gy
    rw [dz] at gz
    exact ⟨gx.trans kx, gy.trans ky, gz.trans kz⟩
  have hb : (deliver [restReading] after255).vtd.accels_sum_count ≠ 0 := by
    rw [deliver_vtd]
    exact period_qualifying after255 [restReading] hclean2 (by decide)
  have hw : advanceCursor 1024 (deliver [restReading] after255).sample_count = 0 := by
    rw [hc]
    decide
  have hper : period sampleMath 1024 after255 [restReading] =
      processWindow sampleMath 1024 (setCursor (sampleBlock (deliver [restReading] after255)) 0) := by
    rw [period_eq_tick]
    exact tick_window sampleMath 1024 (deliver [restReading] after255) hb hw
  have hinit : sampleMath.arm_cfft_radix4_init_f32 1024 = arm_status.ARM_MATH_SUCCESS := by decide
  refine ⟨hper, ?_, (hwin (2 * 256) (by norm_num)).1, (hwin (2 * 256 + 1) (by norm_num)).1, ?_⟩
  · rw [hper, (processWindow_spec sampleMath 1024 _).1, if_pos hinit]
    simp
  · rw [hper, processWindow_records sampleMath 1024 _ hinit 256, setCursor_output,
      sampleBlock_output, deliver_output, hstore, if_pos (by decide)]
    obtain ⟨x2, y2, z2⟩ := hwin 512 (by norm_num)
    obtain ⟨x3, y3, z3⟩ := hwin 513 (by norm_num)
    obtain ⟨cx, cy, cz⟩ := setCursor_buffers (sampleBlock (deliver [restReading] after255)) 0
    simp only [spectrumRecord, magnitudeAt, sampleMath, Nat.reduceMul, Nat.reduceAdd,
      cx, cy, cz, x2, y2, z2, x3, y3, z3]
    norm_num

end VibrationTest
